import Mathlib

/-!
# Verification of the SNMPv3 USM core of gosnmp (src/v3.go)

Shallow embedding of the SNMPv3 User Security Model implementation.
Byte strings are modelled as `List Nat` (each element a byte value),
machine integers as `Nat` with explicit reduction `% 2^32` / `% 2^64`
where the Go code performs fixed-width arithmetic.  Fallible Go code
returns `Except String`; a Go runtime panic is modelled either as
`Option = none` (for functions with no error return, such as
`md5HMAC`) or as an `Except.error` whose message starts with
"panic:".  The hash functions `crypto/md5` and `crypto/sha1` from the
Go standard library are implemented below in full; the block ciphers
`crypto/des` and `crypto/aes` are external collaborators and their
per-block transforms are taken as function parameters, with the modes
of operation (CBC, CFB) implemented below as `crypto/cipher` defines
them.
-/

/-! ## Byte and 32-bit word utilities -/

/-- Little-endian serialization of a 32-bit word into 4 bytes. -/
def toLE4 (x : Nat) : List Nat :=
  [x % 256, x / 256 % 256, x / 65536 % 256, x / 16777216 % 256]

/-- Big-endian serialization of a 32-bit word into 4 bytes
(`binary.BigEndian.PutUint32`). -/
def toBE4 (x : Nat) : List Nat :=
  [x / 16777216 % 256, x / 65536 % 256, x / 256 % 256, x % 256]

/-- `binary.BigEndian.PutUint32` into a fresh 4-byte slice. -/
def putUint32BE (x : Nat) : List Nat := toBE4 (x % 4294967296)

/-- `binary.BigEndian.PutUint64` into a fresh 8-byte slice. -/
def putUint64BE (x : Nat) : List Nat :=
  toBE4 (x % 18446744073709551616 / 4294967296) ++ toBE4 (x % 4294967296)

/-- Big-endian interpretation of a byte list as a natural number. -/
def bytesToNatBE (l : List Nat) : Nat := l.foldl (fun a b => a * 256 + b) 0

/-- 32-bit left rotation. -/
def rotl32 (x n : Nat) : Nat :=
  ((x <<< n) ||| ((x % 4294967296) >>> (32 - n))) % 4294967296

/-- 32-bit complement (`^x` on a uint32). -/
def not32 (x : Nat) : Nat := x ^^^ 4294967295

/-- Split a byte list into 64-byte blocks (the hash block size). -/
def chunks64 (l : List Nat) : List (List Nat) :=
  if h : l = [] then [] else l.take 64 :: chunks64 (l.drop 64)
termination_by l.length
decreasing_by
  simp only [List.length_drop]
  have : l.length ≠ 0 := fun hl => h (List.length_eq_zero.mp hl)
  omega

/-! ## MD5 (crypto/md5) -/

/-- The 64 MD5 round constants. -/
def md5K : List Nat :=
  [0xd76aa478, 0xe8c7b756, 0x242070db, 0xc1bdceee,
   0xf57c0faf, 0x4787c62a, 0xa8304613, 0xfd469501,
   0x698098d8, 0x8b44f7af, 0xffff5bb1, 0x895cd7be,
   0x6b901122, 0xfd987193, 0xa679438e, 0x49b40821,
   0xf61e2562, 0xc040b340, 0x265e5a51, 0xe9b6c7aa,
   0xd62f105d, 0x02441453, 0xd8a1e681, 0xe7d3fbc8,
   0x21e1cde6, 0xc33707d6, 0xf4d50d87, 0x455a14ed,
   0xa9e3e905, 0xfcefa3f8, 0x676f02d9, 0x8d2a4c8a,
   0xfffa3942, 0x8771f681, 0x6d9d6122, 0xfde5380c,
   0xa4beea44, 0x4bdecfa9, 0xf6bb4b60, 0xbebfbc70,
   0x289b7ec6, 0xeaa127fa, 0xd4ef3085, 0x04881d05,
   0xd9d4d039, 0xe6db99e5, 0x1fa27cf8, 0xc4ac5665,
   0xf4292244, 0x432aff97, 0xab9423a7, 0xfc93a039,
   0x655b59c3, 0x8f0ccc92, 0xffeff47d, 0x85845dd1,
   0x6fa87e4f, 0xfe2ce6e0, 0xa3014314, 0x4e0811a1,
   0xf7537e82, 0xbd3af235, 0x2ad7d2bb, 0xeb86d391]

/-- The MD5 per-round left-rotation amounts. -/
def md5S : List Nat :=
  [7, 12, 17, 22, 7, 12, 17, 22, 7, 12, 17, 22, 7, 12, 17, 22,
   5, 9, 14, 20, 5, 9, 14, 20, 5, 9, 14, 20, 5, 9, 14, 20,
   4, 11, 16, 23, 4, 11, 16, 23, 4, 11, 16, 23, 4, 11, 16, 23,
   6, 10, 15, 21, 6, 10, 15, 21, 6, 10, 15, 21, 6, 10, 15, 21]

/-- Little-endian 32-bit word `j` of a 64-byte block. -/
def blockWordLE (block : List Nat) (j : Nat) : Nat :=
  block.getD (4 * j) 0 + 256 * block.getD (4 * j + 1) 0 +
    65536 * block.getD (4 * j + 2) 0 + 16777216 * block.getD (4 * j + 3) 0

/-- One MD5 round operation on the running state `(a, b, c, d)`. -/
def md5Step (block : List Nat) (st : Nat × Nat × Nat × Nat) (i : Nat) :
    Nat × Nat × Nat × Nat :=
  match st with
  | (a, b, c, d) =>
    let f :=
      if i < 16 then (b &&& c) ||| (not32 b &&& d)
      else if i < 32 then (d &&& b) ||| (not32 d &&& c)
      else if i < 48 then b ^^^ c ^^^ d
      else c ^^^ (b ||| not32 d)
    let g :=
      if i < 16 then i
      else if i < 32 then (5 * i + 1) % 16
      else if i < 48 then (3 * i + 5) % 16
      else (7 * i) % 16
    let sum := (a + f + md5K.getD i 0 + blockWordLE block g) % 4294967296
    let b2 := (b + rotl32 sum (md5S.getD i 0)) % 4294967296
    (d, b2, b, c)

/-- The MD5 compression function for one 64-byte block. -/
def md5Compress (st : Nat × Nat × Nat × Nat) (block : List Nat) :
    Nat × Nat × Nat × Nat :=
  match st, (List.range 64).foldl (md5Step block) st with
  | (a, b, c, d), (a2, b2, c2, d2) =>
    ((a + a2) % 4294967296, (b + b2) % 4294967296,
     (c + c2) % 4294967296, (d + d2) % 4294967296)

/-- MD5 padding: append `0x80`, zeros to 56 mod 64, then the bit length
as a little-endian 64-bit integer. -/
def md5Pad (m : List Nat) : List Nat :=
  m ++ 0x80 :: List.replicate ((64 + 56 - (m.length + 1) % 64) % 64) 0 ++
    toLE4 (8 * m.length % 4294967296) ++ toLE4 (8 * m.length / 4294967296 % 4294967296)

/-- The little-endian digest serialization of an MD5 state. -/
def md5Digest (st : Nat × Nat × Nat × Nat) : List Nat :=
  match st with
  | (a, b, c, d) => toLE4 a ++ toLE4 b ++ toLE4 c ++ toLE4 d

/-- The full MD5 hash of a byte string: a 16-byte digest. -/
def md5 (m : List Nat) : List Nat :=
  md5Digest ((chunks64 (md5Pad m)).foldl md5Compress
    (0x67452301, 0xefcdab89, 0x98badcfe, 0x10325476))

/-! ## SHA-1 (crypto/sha1) -/

/-- Big-endian 32-bit word `j` of a 64-byte block. -/
def blockWordBE (block : List Nat) (j : Nat) : Nat :=
  16777216 * block.getD (4 * j) 0 + 65536 * block.getD (4 * j + 1) 0 +
    256 * block.getD (4 * j + 2) 0 + block.getD (4 * j + 3) 0

/-- Extend the 16 message words of a SHA-1 block to the 80-word schedule. -/
def sha1Schedule (w16 : List Nat) : List Nat :=
  (List.range 64).foldl
    (fun ws _ =>
      ws ++ [rotl32 (ws.getD (ws.length - 3) 0 ^^^ ws.getD (ws.length - 8) 0 ^^^
        ws.getD (ws.length - 14) 0 ^^^ ws.getD (ws.length - 16) 0) 1])
    w16

/-- One SHA-1 round operation on the running state `(a, b, c, d, e)`. -/
def sha1Step (w : List Nat) (st : Nat × Nat × Nat × Nat × Nat) (i : Nat) :
    Nat × Nat × Nat × Nat × Nat :=
  match st with
  | (a, b, c, d, e) =>
    let f :=
      if i < 20 then (b &&& c) ||| (not32 b &&& d)
      else if i < 40 then b ^^^ c ^^^ d
      else if i < 60 then (b &&& c) ||| (b &&& d) ||| (c &&& d)
      else b ^^^ c ^^^ d
    let k :=
      if i < 20 then 0x5a827999
      else if i < 40 then 0x6ed9eba1
      else if i < 60 then 0x8f1bbcdc
      else 0xca62c1d6
    let temp := (rotl32 a 5 + f + e + k + w.getD i 0) % 4294967296
    (temp, a, rotl32 b 30, c, d)

/-- The SHA-1 compression function for one 64-byte block. -/
def sha1Compress (st : Nat × Nat × Nat × Nat × Nat) (block : List Nat) :
    Nat × Nat × Nat × Nat × Nat :=
  let w := sha1Schedule ((List.range 16).map (blockWordBE block))
  match st, (List.range 80).foldl (sha1Step w) st with
  | (a, b, c, d, e), (a2, b2, c2, d2, e2) =>
    ((a + a2) % 4294967296, (b + b2) % 4294967296, (c + c2) % 4294967296,
     (d + d2) % 4294967296, (e + e2) % 4294967296)

/-- SHA-1 padding: like MD5 but the bit length is big-endian. -/
def sha1Pad (m : List Nat) : List Nat :=
  m ++ 0x80 :: List.replicate ((64 + 56 - (m.length + 1) % 64) % 64) 0 ++
    toBE4 (8 * m.length / 4294967296 % 4294967296) ++ toBE4 (8 * m.length % 4294967296)

/-- The big-endian digest serialization of a SHA-1 state. -/
def sha1Digest (st : Nat × Nat × Nat × Nat × Nat) : List Nat :=
  match st with
  | (a, b, c, d, e) => toBE4 a ++ toBE4 b ++ toBE4 c ++ toBE4 d ++ toBE4 e

/-- The full SHA-1 hash of a byte string: a 20-byte digest. -/
def sha1 (m : List Nat) : List Nat :=
  sha1Digest ((chunks64 (sha1Pad m)).foldl sha1Compress
    (0x67452301, 0xefcdab89, 0x98badcfe, 0x10325476, 0xc3d2e1f0))

/-! ## Key localization (md5HMAC / shaHMAC / genlocalkey, v3.go lines 245-296)

The Go functions stream sixteen-thousand 64-byte chunks into a single
running hash; since `hash.Hash.Sum` digests the concatenation of all
written bytes, this is embedded as one hash of the concatenated chunk
stream.  On an empty passphrase the Go expression
`password[pi%len(password)]` divides by zero and panics; that panic is
modelled as `none`. -/

/-- The 1,048,576-byte keying stream exactly as the Go loop produces it:
16384 chunks of 64 bytes, with a running password index `pi`. -/
def hmacChunkStream (password : List Nat) : List Nat :=
  (List.range 16384).flatMap
    (fun c => (List.range 64).map (fun e => password.getD ((64 * c + e) % password.length) 0))

/-- `md5HMAC` without the empty-password panic case (v3.go lines 246-264). -/
def md5HMACcore (password engineID : List Nat) : List Nat :=
  let compressed := md5 (hmacChunkStream password)
  md5 (compressed ++ engineID ++ compressed)

/-- MD5 HMAC key localization; `none` models the Go division-by-zero
panic on an empty password. -/
def md5HMAC (password engineID : List Nat) : Option (List Nat) :=
  if password = [] then none else some (md5HMACcore password engineID)

/-- `shaHMAC` without the empty-password panic case (v3.go lines 267-285). -/
def shaHMACcore (password engineID : List Nat) : List Nat :=
  let hashed := sha1 (hmacChunkStream password)
  sha1 (hashed ++ engineID ++ hashed)

/-- SHA HMAC key localization; `none` models the Go division-by-zero
panic on an empty password. -/
def shaHMAC (password engineID : List Nat) : Option (List Nat) :=
  if password = [] then none else some (shaHMACcore password engineID)

/-- Authentication protocol constants (`SnmpV3AuthProtocol`): NoAuth = 1,
MD5 = 2, SHA = 3; modelled as `Nat` since the Go type is a `uint8` whose
zero value is also inhabited. -/
def SHA : Nat := 3

/-- `NoAuth SnmpV3AuthProtocol = 1`. -/
def NoAuth : Nat := 1

/-- `MD5 SnmpV3AuthProtocol = 2`. -/
def MD5 : Nat := 2

/-- Privacy protocol constants (`SnmpV3PrivProtocol`): NoPriv = 1,
DES = 2, AES = 3. -/
def NoPriv : Nat := 1

/-- `DES SnmpV3PrivProtocol = 2`. -/
def DES : Nat := 2

/-- `AES SnmpV3PrivProtocol = 3`. -/
def AES : Nat := 3

/-- `genlocalkey` (v3.go lines 287-296): the `switch` sends `SHA` to
`shaHMAC` and everything else (the `default` arm) to `md5HMAC`. -/
def genlocalkey (authProtocol : Nat) (passphrase engineID : List Nat) : Option (List Nat) :=
  if authProtocol = SHA then shaHMAC passphrase engineID else md5HMAC passphrase engineID

/-- The total value `genlocalkey` returns on a non-empty passphrase. -/
def genlocalkeyCore (authProtocol : Nat) (passphrase engineID : List Nat) : List Nat :=
  if authProtocol = SHA then shaHMACcore passphrase engineID else md5HMACcore passphrase engineID

/-- The hash function the `switch` statements on the authentication
protocol select: `sha1` for `SHA`, `md5` for everything else. -/
def hashOf (authProtocol : Nat) : List Nat → List Nat :=
  if authProtocol = SHA then sha1 else md5

/-- Key-localization algorithm as the specification words it (spec 4.1):
build a 1,048,576-byte stream by repeating the passphrase cyclically,
let Ku be its digest, and return `H(Ku || engine_id || Ku)`. -/
def localizeSpec (H : List Nat → List Nat) (passphrase engineID : List Nat) : List Nat :=
  let stream := (List.range 1048576).map (fun i => passphrase.getD (i % passphrase.length) 0)
  let Ku := H stream
  H (Ku ++ engineID ++ Ku)

/-! ## HMAC computation (authenticate / isAuthentic, v3.go lines 145-243) -/

/-- `var extkey [64]byte; copy(extkey[:], secretKey)`: the secret key
placed in a zeroed 64-byte block. -/
def extkey64 (secretKey : List Nat) : List Nat :=
  (secretKey ++ List.replicate 64 0).take 64

/-- The authentication tag exactly as `authenticate`/`isAuthentic`
compute it: `k1 = extkey ^ 0x36`, `k2 = extkey ^ 0x5c`,
`tag = H(k2 || H(k1 || msg))`. -/
def hmacTag (H : List Nat → List Nat) (secretKey msg : List Nat) : List Nat :=
  let k1 := (extkey64 secretKey).map (fun b => b ^^^ 0x36)
  let k2 := (extkey64 secretKey).map (fun b => b ^^^ 0x5c)
  H (k2 ++ H (k1 ++ msg))

/-- HMAC as RFC 2104 (and spec 4.2) words it: `K0` is the key
zero-padded to the 64-byte block; the tag is
`H((K0 XOR opad) || H((K0 XOR ipad) || text))` with ipad bytes 0x36 and
opad bytes 0x5C. -/
def hmacRFC2104 (H : List Nat → List Nat) (key text : List Nat) : List Nat :=
  let K0 := key ++ List.replicate (64 - key.length) 0
  H (List.zipWith Nat.xor K0 (List.replicate 64 0x5c) ++
    H (List.zipWith Nat.xor K0 (List.replicate 64 0x36) ++ text))

/-! ## Data model -/

/-- `UsmSecurityParameters` (v3.go lines 70-86).  Go strings holding
octet data are byte lists; the two salt counters are the trailing
unexported fields. -/
structure UsmSecurityParameters where
  authoritativeEngineID : List Nat
  authoritativeEngineBoots : Nat
  authoritativeEngineTime : Nat
  userName : List Nat
  authenticationParameters : List Nat
  privacyParameters : List Nat
  authenticationProtocol : Nat
  privacyProtocol : Nat
  authenticationPassphrase : List Nat
  privacyPassphrase : List Nat
  localDESSalt : Nat
  localAESSalt : Nat
deriving DecidableEq, Repr

/-- The zero value `&UsmSecurityParameters\x7b\x7d` used by the discovery
probe. -/
def emptyUsmSecurityParameters : UsmSecurityParameters :=
  ⟨[], 0, 0, [], [], [], 0, 0, [], [], 0, 0⟩

/-- The fields of `SnmpPacket` the USM core reads or writes.  The Go
field `SecurityParameters` is an interface; `none` models a value that
is not a populated `*UsmSecurityParameters`. -/
structure SnmpPacket where
  version : Nat
  msgFlags : Nat
  securityModel : Nat
  securityParameters : Option UsmSecurityParameters
  pduType : Nat
  contextEngineID : List Nat
  contextName : List Nat
  msgID : Nat
deriving DecidableEq, Repr

/-- The fields of the connection object `GoSNMP` the USM core uses. -/
structure GoSNMP where
  version : Nat
  msgFlags : Nat
  securityModel : Nat
  securityParameters : Option UsmSecurityParameters
  contextEngineID : List Nat
  msgID : Nat
deriving DecidableEq, Repr

/-- `Version3` of `SnmpVersion`. -/
def Version3 : Nat := 3

/-- `UserSecurityModel SnmpV3SecurityModel = 3`. -/
def UserSecurityModel : Nat := 3

/-- Message flag constants: `NoAuthNoPriv = 0x0`, `AuthNoPriv = 0x1`,
`AuthPriv = 0x3`, `Reportable = 0x4`. -/
def NoAuthNoPriv : Nat := 0

/-- `AuthNoPriv SnmpV3MsgFlags = 0x1`. -/
def AuthNoPriv : Nat := 1

/-- `AuthPriv SnmpV3MsgFlags = 0x3`. -/
def AuthPriv : Nat := 3

/-- `Reportable SnmpV3MsgFlags = 0x4`. -/
def Reportable : Nat := 4

/-- BER tag constants (`Sequence = 0x30`, `Integer = 0x02`,
`OctetString = 0x04`, `GetRequest = 0xa0`). -/
def SequenceTag : Nat := 0x30

/-- `Integer` BER tag. -/
def IntegerTag : Nat := 0x02

/-- `OctetString` BER tag. -/
def OctetStringTag : Nat := 0x04

/-- `GetRequest` PDU type. -/
def GetRequest : Nat := 0xa0

/-! ## authenticate (v3.go lines 145-200) -/

/-- The three ways `authenticate` can come back: a returned buffer, a
returned error, or the `defer recover()` swallowing a panic (in which
case Go returns the zero values `nil, nil`). -/
inductive AuthOut where
  | ok (msg : List Nat)
  | err (e : String)
  | recovered
deriving DecidableEq, Repr

/-- `authenticate` (v3.go lines 145-200): on a version-3 packet with the
Auth flag set it computes the HMAC over `msg` and overwrites
`msg[authParamStart : authParamStart+12]` with the first 12 tag bytes.
`recovered` models the deferred `recover()` catching the panic from
`genlocalkey` on an empty passphrase or from slicing past the end of
`msg`. -/
def authenticate (packet : SnmpPacket) (msg : List Nat) (authParamStart : Nat) : AuthOut :=
  if packet.version ≠ Version3 then .ok msg
  else if packet.msgFlags &&& AuthNoPriv = 0 then .ok msg
  else if packet.securityModel ≠ UserSecurityModel then
    .err "Error authenticating message: Unknown security model."
  else
    match packet.securityParameters with
    | none => .err "Error authenticating message: Unable to extract UsmSecurityParameters"
    | some secParams =>
      match genlocalkey secParams.authenticationProtocol secParams.authenticationPassphrase
          secParams.authoritativeEngineID with
      | none => .recovered
      | some secretKey =>
        if authParamStart + 12 ≤ msg.length then
          .ok (msg.take authParamStart ++
            (hmacTag (hashOf secParams.authenticationProtocol) secretKey msg).take 12 ++
            msg.drop (authParamStart + 12))
        else .recovered

/-- The byte-comparison loop of `isAuthentic` (v3.go lines 237-242):
`for k, v := range authParams` compared against `result[k]`.  `none`
models the index-out-of-range panic when `authParams` is longer than
the 12-byte `result` and all first 12 bytes matched. -/
def authCompare (result : List Nat) (params : List Nat) (k : Nat) : Option Bool :=
  match params with
  | [] => some true
  | v :: rest =>
    match result.get? k with
    | none => none
    | some r => if r ≠ v then some false else authCompare result rest (k + 1)

/-- `isAuthentic` (v3.go lines 202-243): recomputes the truncated HMAC
of `msg` and compares the received `authParams` byte-by-byte against
it.  `none` models a panic (empty passphrase in `genlocalkey`, or
`authParams` longer than 12 with a matching 12-byte front). -/
def isAuthentic (msg authParams : List Nat) (authProtocol : Nat)
    (authPassphrase authEngineID : List Nat) : Option Bool :=
  match genlocalkey authProtocol authPassphrase authEngineID with
  | none => none
  | some secretKey =>
    authCompare ((hmacTag (hashOf authProtocol) secretKey msg).take 12) authParams 0

/-! ## validateParametersV3 (v3.go lines 88-126) -/

/-- `validateParametersV3`: configuration validation, including the
guard that rejects empty passphrases before key localization can be
reached.  The Go `switch` with `fallthrough` is unrolled: level 3 runs
the privacy checks then the auth checks then the user check, level 1
the auth checks then the user check, level 0 just the user check, and
level 2 is the `default` arm. -/
def validateParametersV3 (x : GoSNMP) : Except String Unit :=
  if x.securityModel ≠ UserSecurityModel then
    .error "The SNMPV3 User Security Model is the only SNMPV3 security model currently implemented"
  else
    match x.securityParameters with
    | none => .error "The SecurityParameters field does not contain a populated instance of UsmSecurityParameters"
    | some usm =>
      let securityLevel := x.msgFlags &&& AuthPriv
      if securityLevel = AuthPriv then
        if usm.privacyProtocol ≤ NoPriv then .error "SecurityParameters.PrivacyProtocol is required"
        else if usm.privacyPassphrase = [] then .error "SecurityParameters.PrivacyPassphrase is required"
        else if usm.authenticationProtocol ≤ NoAuth then .error "SecurityParameters.AuthenticationProtocol is required"
        else if usm.authenticationPassphrase = [] then .error "SecurityParameters.AuthenticationPassphrase is required"
        else if usm.userName = [] then .error "SecurityParameters.UserName is required"
        else .ok ()
      else if securityLevel = AuthNoPriv then
        if usm.authenticationProtocol ≤ NoAuth then .error "SecurityParameters.AuthenticationProtocol is required"
        else if usm.authenticationPassphrase = [] then .error "SecurityParameters.AuthenticationPassphrase is required"
        else if usm.userName = [] then .error "SecurityParameters.UserName is required"
        else .ok ()
      else if securityLevel = NoAuthNoPriv then
        if usm.userName = [] then .error "SecurityParameters.UserName is required"
        else .ok ()
      else .error "MsgFlags must be populated with an appropriate security level"

/-! ## BER length and raw-field primitives

`marshalLength`, `parseLength`, `marshalUvarInt` and `parseRawField`
live in helper.go/marshal.go of the repository, which is not part of
the provided sources; they are modelled from the specification
(spec 6: tag constants, short-form lengths below 128 and long form
with up to 4 length bytes; spec 4.5: INTEGER fields parsed as unsigned
values) and from how v3.go calls them (`parseLength` returns the total
TLV length including the tag and length header, together with the
header size; `parseRawField` returns the decoded value and the total
TLV length). -/

/-- Minimal big-endian byte representation of a natural number
(empty for 0); fuelled structural recursion so the kernel can
evaluate it. -/
def natToBEbytesAux : Nat → Nat → List Nat
  | 0, _ => []
  | fuel + 1, n => if n = 0 then [] else natToBEbytesAux fuel (n / 256) ++ [n % 256]

/-- Minimal big-endian bytes of `n` (at most 16 bytes). -/
def natToBEbytes (n : Nat) : List Nat := natToBEbytesAux 16 n

/-- Modelled from the spec: `marshalLength` (helper code outside src/)
emits the short form for lengths below 128 and otherwise the long form
`0x80+k` followed by `k` big-endian bytes, erroring when more than 4
length bytes would be needed. -/
def marshalLength (n : Nat) : Except String (List Nat) :=
  if n ≤ 127 then .ok [n]
  else
    let bs := natToBEbytes n
    if bs.length ≤ 4 then .ok ((128 + bs.length) :: bs)
    else .error "length too long to marshal"

/-- Modelled from the spec: `parseLength` (helper code outside src/)
reads the length byte after the tag and returns
`(total TLV length including tag and header, header size)`. -/
def parseLength (bytes : List Nat) : Nat × Nat :=
  match bytes with
  | _ :: l :: rest =>
    if l ≤ 127 then (l + 2, 2)
    else
      let k := l % 128
      (bytesToNatBE (rest.take k) + 2 + k, 2 + k)
  | _ => (0, 0)

/-- Modelled from the spec: `marshalUvarInt` encodes a `uint32` as its
minimal big-endian byte string (one zero byte for 0). -/
def marshalUvarInt (x : Nat) : List Nat :=
  if x % 4294967296 = 0 then [0] else natToBEbytes (x % 4294967296)

/-- The two value shapes `parseRawField` can hand back that v3.go
inspects with type assertions: an `int` or a `string`. -/
inductive RawValue where
  | int (n : Nat)
  | str (s : List Nat)
deriving DecidableEq, Repr

/-- Modelled from the spec: `parseRawField` (helper code outside src/)
decodes one TLV, returning the value and the total TLV length; INTEGER
content is read as an unsigned big-endian number, OCTET STRING content
as raw bytes.  An `error` whose message starts with "panic:" models
the Go slice panic on truncated input. -/
def parseRawField (data : List Nat) : Except String (RawValue × Nat) :=
  match data with
  | [] => .error "panic: runtime error: index out of range"
  | t :: _ =>
    let tl := parseLength data
    if data.length < tl.1 then .error "panic: runtime error: slice bounds out of range"
    else if t = IntegerTag then
      .ok (.int (bytesToNatBE ((data.drop tl.2).take (tl.1 - tl.2))), tl.1)
    else if t = OctetStringTag then
      .ok (.str ((data.drop tl.2).take (tl.1 - tl.2)), tl.1)
    else .error "Unknown field type"

/-! ## Cipher modes of operation (crypto/cipher)

The per-block DES/AES transforms come from the Go standard library and
enter the embedding as function parameters `key → block → block`; the
CBC and CFB chaining structure is defined here as `crypto/cipher`
implements it (16-byte segments for CFB over AES, 8-byte blocks for
CBC over DES). -/

/-- CBC encryption over an 8-byte block cipher `E`. -/
def cbcEnc (E : List Nat → List Nat) (iv pt : List Nat) : List Nat :=
  if h : pt = [] then []
  else
    let c := E (List.zipWith Nat.xor (pt.take 8) iv)
    c ++ cbcEnc E c (pt.drop 8)
termination_by pt.length
decreasing_by
  simp only [List.length_drop]
  have : pt.length ≠ 0 := fun hl => h (List.length_eq_zero.mp hl)
  omega

/-- CBC decryption over an 8-byte block cipher `D`. -/
def cbcDec (D : List Nat → List Nat) (iv ct : List Nat) : List Nat :=
  if h : ct = [] then []
  else
    List.zipWith Nat.xor (D (ct.take 8)) iv ++ cbcDec D (ct.take 8) (ct.drop 8)
termination_by ct.length
decreasing_by
  simp only [List.length_drop]
  have : ct.length ≠ 0 := fun hl => h (List.length_eq_zero.mp hl)
  omega

/-- CFB-128 encryption over a 16-byte block cipher `E`: each ciphertext
segment is the plaintext XORed with `E` of the previous segment (the IV
first), and becomes the next shift-register contents. -/
def cfbEnc (E : List Nat → List Nat) (iv pt : List Nat) : List Nat :=
  if h : pt = [] then []
  else
    let c := List.zipWith Nat.xor (pt.take 16) (E iv)
    c ++ cfbEnc E c (pt.drop 16)
termination_by pt.length
decreasing_by
  simp only [List.length_drop]
  have : pt.length ≠ 0 := fun hl => h (List.length_eq_zero.mp hl)
  omega

/-- CFB-128 decryption: same keystream, fed with ciphertext segments. -/
def cfbDec (E : List Nat → List Nat) (iv ct : List Nat) : List Nat :=
  if h : ct = [] then []
  else
    List.zipWith Nat.xor (ct.take 16) (E iv) ++ cfbDec E (ct.take 16) (ct.drop 16)
termination_by ct.length
decreasing_by
  simp only [List.length_drop]
  have : ct.length ≠ 0 := fun hl => h (List.length_eq_zero.mp hl)
  omega

/-! ## Message building (v3.go lines 494-721) -/

/-- Modelled from the spec: the receive buffer size whose value is
marshalled as `msgMaxSize` ("typically the receive buffer size"). -/
def rxBufSize : Nat := 65535

/-- `marshalSnmpV3Header` (v3.go lines 494-517): msgID as a 4-byte
big-endian INTEGER, msgMaxSize, the one-byte msgFlags OCTET STRING and
the one-byte msgSecurityModel INTEGER. -/
def marshalSnmpV3Header (packet : SnmpPacket) (msgid : Nat) : List Nat :=
  let maxmsgsize := marshalUvarInt rxBufSize
  [IntegerTag, 4] ++ putUint32BE msgid ++
    [IntegerTag, maxmsgsize.length % 256] ++ maxmsgsize ++
    [OctetStringTag, 1, packet.msgFlags % 256] ++
    [IntegerTag, 1, packet.securityModel % 256]

/-- `marshalSnmpV3UsmSecurityParameters` (v3.go lines 519-580): the USM
parameter sequence together with `authParamStart`, the offset of the
first of the 12 reserved zero bytes inside the returned byte string. -/
def marshalSnmpV3UsmSecurityParameters (packet : SnmpPacket) :
    Except String (List Nat × Nat) :=
  match packet.securityParameters with
  | none => .error "packet.SecurityParameters is not of type &UsmSecurityParameters"
  | some secParams =>
    let boots := marshalUvarInt secParams.authoritativeEngineBoots
    let time := marshalUvarInt secParams.authoritativeEngineTime
    let part1 :=
      [OctetStringTag, secParams.authoritativeEngineID.length % 256] ++
        secParams.authoritativeEngineID ++
      [IntegerTag, boots.length % 256] ++ boots ++
      [IntegerTag, time.length % 256] ++ time ++
      [OctetStringTag, secParams.userName.length % 256] ++ secParams.userName
    let authParamStart := part1.length + 2
    let authPart :=
      if packet.msgFlags &&& AuthNoPriv > 0 then
        [OctetStringTag, 12] ++ List.replicate 12 0
      else [OctetStringTag, 0]
    match (if packet.msgFlags &&& AuthPriv > AuthNoPriv then
        (marshalLength secParams.privacyParameters.length).map
          (fun privlen => OctetStringTag :: privlen ++ secParams.privacyParameters)
      else .ok [OctetStringTag, 0]) with
    | .error e => .error e
    | .ok privPart =>
      let body := part1 ++ authPart ++ privPart
      match marshalLength body.length with
      | .error e => .error e
      | .ok paramLen =>
        .ok (SequenceTag :: paramLen ++ body, authParamStart + 1 + paramLen.length)

/-- `prepareSnmpV3ScopedPDU` (v3.go lines 654-680).  The PDU body comes
from the external `PduCodec` (`packet.marshalPDU`), which the spec
declares out of scope; its output enters as the byte list `pduBytes`. -/
def prepareSnmpV3ScopedPDU (packet : SnmpPacket) (pduBytes : List Nat) :
    Except String (List Nat) :=
  match marshalLength packet.contextEngineID.length with
  | .error e => .error e
  | .ok idlen =>
    match marshalLength packet.contextName.length with
    | .error e => .error e
    | .ok namelen =>
      .ok ((OctetStringTag :: idlen) ++ packet.contextEngineID ++
        (OctetStringTag :: namelen) ++ packet.contextName ++ pduBytes)

/-- `marshalSnmpV3ScopedPDU` (v3.go lines 582-652): frames the scoped
PDU in a SEQUENCE and, when the Priv flag is set under the USM,
encrypts it (AES-CFB without padding, or DES-CBC after zero-padding to
a multiple of 8) and wraps the ciphertext in an OCTET STRING.  `desE`
and `aesE` are the per-block encryption functions of `crypto/des` and
`crypto/aes`. -/
def marshalSnmpV3ScopedPDU (desE aesE : List Nat → List Nat → List Nat)
    (packet : SnmpPacket) (pduBytes : List Nat) : Except String (List Nat) :=
  match prepareSnmpV3ScopedPDU packet pduBytes with
  | .error e => .error e
  | .ok scopedPdu0 =>
    match marshalLength scopedPdu0.length with
    | .error e => .error e
    | .ok pduLen =>
      let scopedPdu := SequenceTag :: pduLen ++ scopedPdu0
      if packet.msgFlags &&& AuthPriv > AuthNoPriv ∧ packet.securityModel = UserSecurityModel then
        match packet.securityParameters with
        | none => .error "packet.SecurityModel indicates the User Security Model, but packet.SecurityParameters is not of type &UsmSecurityParameters"
        | some secParams =>
          match genlocalkey secParams.authenticationProtocol secParams.privacyPassphrase
              secParams.authoritativeEngineID with
          | none => .error "panic: runtime error: integer divide by zero"
          | some privkey =>
            if secParams.privacyProtocol = AES then
              let iv := putUint32BE secParams.authoritativeEngineBoots ++
                putUint32BE secParams.authoritativeEngineTime ++
                (secParams.privacyParameters ++ List.replicate 8 0).take 8
              let ciphertext := cfbEnc (aesE (privkey.take 16)) iv scopedPdu
              match marshalLength ciphertext.length with
              | .error e => .error e
              | .ok ctLen => .ok (OctetStringTag :: ctLen ++ ciphertext)
            else
              if secParams.privacyParameters.length < 8 then
                .error "panic: runtime error: index out of range"
              else
                let iv := List.zipWith Nat.xor ((privkey.drop 8).take 8)
                  (secParams.privacyParameters.take 8)
                let padded := scopedPdu ++
                  List.replicate (8 - scopedPdu.length % 8) 0
                let ciphertext := cbcEnc (desE (privkey.take 8)) iv padded
                match marshalLength ciphertext.length with
                | .error e => .error e
                | .ok ctLen => .ok (OctetStringTag :: ctLen ++ ciphertext)
      else .ok scopedPdu

/-- `prepV3pPDU` (v3.go lines 682-721): writes the global-data header,
the security parameters (adjusting `authParamStart` to an absolute
offset in the buffer) and the scoped PDU after the caller-provided
buffer contents `bufInit`. -/
def prepV3pPDU (desE aesE : List Nat → List Nat → List Nat) (packet : SnmpPacket)
    (msgid : Nat) (bufInit pduBytes : List Nat) : Except String (List Nat × Nat) :=
  let header := marshalSnmpV3Header packet msgid
  let b1 := bufInit ++ [SequenceTag, header.length % 256] ++ header
  match (if packet.securityModel = UserSecurityModel then
      marshalSnmpV3UsmSecurityParameters packet
    else .ok ([], 0)) with
  | .error e => .error e
  | .ok (securityParameters, aps) =>
    match marshalLength securityParameters.length with
    | .error e => .error e
    | .ok secParamLen =>
      let b2 := b1 ++ OctetStringTag :: secParamLen
      let authParamStart := aps + b2.length
      match marshalSnmpV3ScopedPDU desE aesE packet pduBytes with
      | .error e => .error e
      | .ok scopedPdu => .ok (b2 ++ securityParameters ++ scopedPdu, authParamStart)

/-! ## buildPacket3 and salt counters (v3.go lines 304-348) -/

/-- `buildPacket3` (v3.go lines 304-348): increments the connection
message id, then — when privacy is enabled under the USM — atomically
increments the connection salt counter selected by the connection
privacy protocol and stores the big-endian salt in the outgoing
packet's privacy parameters.  The Go `atomic.AddUint32`/`AddUint64`
wrap silently, modelled by `% 2^32` / `% 2^64`. -/
def buildPacket3 (x : GoSNMP) (packetOut : SnmpPacket) :
    Except String (GoSNMP × SnmpPacket) :=
  let x1 : GoSNMP := {x with msgID := (x.msgID + 1) % 4294967296}
  if x1.msgFlags &&& AuthPriv > AuthNoPriv ∧ x1.securityModel = UserSecurityModel then
    match x1.securityParameters with
    | none => .error "&GoSNMP.SecurityModel indicates the User Security Model, but &GoSNMP.SecurityParameters is not of type &UsmSecurityParameters"
    | some baseSecParams =>
      let base2 :=
        if baseSecParams.privacyProtocol = AES then
          {baseSecParams with localAESSalt := (baseSecParams.localAESSalt + 1) % 18446744073709551616}
        else if baseSecParams.privacyProtocol = DES then
          {baseSecParams with localDESSalt := (baseSecParams.localDESSalt + 1) % 4294967296}
        else baseSecParams
      let newPktLocalAESSalt := if baseSecParams.privacyProtocol = AES then base2.localAESSalt else 0
      let newPktLocalDESSalt := if baseSecParams.privacyProtocol = DES then base2.localDESSalt else 0
      let x2 : GoSNMP := {x1 with securityParameters := some base2}
      if packetOut.version = Version3 ∧ packetOut.securityModel = UserSecurityModel ∧
          packetOut.msgFlags &&& AuthPriv > AuthNoPriv then
        match packetOut.securityParameters with
        | none => .error "packetOut.SecurityModel indicates the User Security Model, but packetOut.SecurityParameters is not of type &UsmSecurityParameters"
        | some pktSecParams =>
          let desSalt := putUint32BE pktSecParams.authoritativeEngineBoots ++
            putUint32BE newPktLocalDESSalt
          let pktSecParams2 :=
            if pktSecParams.privacyProtocol = AES then
              {pktSecParams with privacyParameters := putUint64BE newPktLocalAESSalt}
            else
              {pktSecParams with privacyParameters := desSalt}
          .ok (x2, {packetOut with securityParameters := some pktSecParams2})
      else .ok (x2, packetOut)
  else .ok (x1, packetOut)

/-! ## Message parsing (extractV3Packet, v3.go lines 723-957)

The single Go function is factored into three sequential stages with
the same data flow: the global header fields, the USM parameter block
with the in-place zero-and-verify of the authentication parameters,
and the scoped-PDU part with decryption and truncation.  Out-of-range
reads of single header bytes (`packet[cursor]`) use a default of 256,
which matches no tag and therefore takes the same error arm the Go
panic would abort through. -/

/-- Stage 1 of `extractV3Packet` (v3.go lines 728-776): the outer
sequence header, msgID, msgMaxSize (discarded), msgFlags,
msgSecurityModel, and the OCTET STRING head of the security
parameters.  Each value is stored only when the type assertion on the
raw field succeeds, as in the Go code. -/
def parseV3GlobalData (packet : List Nat) (c0 : Nat) (resp : SnmpPacket) :
    Except String (SnmpPacket × Nat) :=
  if packet.getD c0 256 ≠ SequenceTag then .error "Invalid SNMPV3 Header"
  else
    let c1 := c0 + (parseLength (packet.drop c0)).2
    match parseRawField (packet.drop c1) with
    | .error e => .error ("Error parsing SNMPV3 message ID: " ++ e)
    | .ok (rawMsgID, n1) =>
      let c2 := c1 + n1
      let resp1 := match rawMsgID with
        | .int v => {resp with msgID := v % 4294967296}
        | _ => resp
      match parseRawField (packet.drop c2) with
      | .error e => .error ("Error parsing SNMPV3 maxMsgSize: " ++ e)
      | .ok (_, n2) =>
        let c3 := c2 + n2
        match parseRawField (packet.drop c3) with
        | .error e => .error ("Error parsing SNMPV3 msgFlags: " ++ e)
        | .ok (rawMsgFlags, n3) =>
          let c4 := c3 + n3
          match (match rawMsgFlags with
            | .str [] => .error "panic: runtime error: index out of range"
            | .str (f :: _) => .ok {resp1 with msgFlags := f}
            | _ => .ok resp1 : Except String SnmpPacket) with
          | .error e => .error e
          | .ok resp2 =>
            match parseRawField (packet.drop c4) with
            | .error e => .error ("Error parsing SNMPV3 msgSecModel: " ++ e)
            | .ok (rawSecModel, n4) =>
              let c5 := c4 + n4
              let resp3 := match rawSecModel with
                | .int v => {resp2 with securityModel := v % 256}
                | _ => resp2
              if packet.getD c5 256 ≠ OctetStringTag then
                .error "Invalid SNMPV3 Security Parameters"
              else
                .ok (resp3, c5 + (parseLength (packet.drop c5)).2)

/-- The tail of the USM stage after the authentication check
(v3.go lines 857-867): the privacy parameters field. -/
def parseUsmTail (packet : List Nat) (c6 : Nat) (sp : UsmSecurityParameters)
    (resp : SnmpPacket) : Except String (List Nat × SnmpPacket × Nat) :=
  match parseRawField (packet.drop c6) with
  | .error e => .error ("Error parsing SNMPV3 User Security Model msgPrivacyParameters: " ++ e)
  | .ok (rawPP, n6) =>
    let sp2 := match rawPP with
      | .str s => {sp with privacyParameters := s}
      | _ => sp
    .ok (packet, {resp with securityParameters := some sp2}, c6 + n6)

/-- Stage 2 of `extractV3Packet` (v3.go lines 778-870): the USM
parameter sequence.  When the parsed message flags carry the Auth bit,
the raw authentication-parameters TLV must be exactly 14 bytes
(2 header + 12 content); the 12 content bytes in the buffer are then
overwritten with zeros and `isAuthentic` is consulted before parsing
continues. -/
def parseV3UsmAndAuth (packet : List Nat) (c0 : Nat) (resp : SnmpPacket)
    (origAuthEngineID : List Nat) : Except String (List Nat × SnmpPacket × Nat) :=
  if resp.securityModel = UserSecurityModel then
    match resp.securityParameters with
    | none => .error "&GoSNMP.SecurityModel indicates the User Security Model, but &GoSNMP.SecurityParameters is not of type &UsmSecurityParameters"
    | some sp0 =>
      if packet.getD c0 256 ≠ SequenceTag then
        .error "Error parsing SNMPV3 User Security Model parameters"
      else
        let c1 := c0 + (parseLength (packet.drop c0)).2
        match parseRawField (packet.drop c1) with
        | .error e => .error ("Error parsing SNMPV3 User Security Model msgAuthoritativeEngineID: " ++ e)
        | .ok (rawEID, n1) =>
          let c2 := c1 + n1
          let sp1 := match rawEID with
            | .str s => {sp0 with authoritativeEngineID := s}
            | _ => sp0
          match parseRawField (packet.drop c2) with
          | .error e => .error ("Error parsing SNMPV3 User Security Model msgAuthoritativeEngineBoots: " ++ e)
          | .ok (rawBoots, n2) =>
            let c3 := c2 + n2
            let sp2 := match rawBoots with
              | .int v => {sp1 with authoritativeEngineBoots := v % 4294967296}
              | _ => sp1
            match parseRawField (packet.drop c3) with
            | .error e => .error ("Error parsing SNMPV3 User Security Model msgAuthoritativeEngineTime: " ++ e)
            | .ok (rawTime, n3) =>
              let c4 := c3 + n3
              let sp3 := match rawTime with
                | .int v => {sp2 with authoritativeEngineTime := v % 4294967296}
                | _ => sp2
              match parseRawField (packet.drop c4) with
              | .error e => .error ("Error parsing SNMPV3 User Security Model msgUserName: " ++ e)
              | .ok (rawUser, n4) =>
                let c5 := c4 + n4
                let sp4 := match rawUser with
                  | .str s => {sp3 with userName := s}
                  | _ => sp3
                match parseRawField (packet.drop c5) with
                | .error e => .error ("Error parsing SNMPV3 User Security Model msgAuthenticationParameters: " ++ e)
                | .ok (rawAP, n5) =>
                  let sp5 := match rawAP with
                    | .str s => {sp4 with authenticationParameters := s}
                    | _ => sp4
                  if resp.msgFlags &&& AuthNoPriv > 0 then
                    if n5 ≠ 14 then
                      .error "Error authenticating incoming packet: msgAuthenticationParameters is not the correct size"
                    else
                      let zp := packet.take (c5 + 2) ++ List.replicate 12 0 ++
                        packet.drop (c5 + 14)
                      match isAuthentic zp sp5.authenticationParameters
                          sp5.authenticationProtocol sp5.authenticationPassphrase
                          origAuthEngineID with
                      | none => .error "panic: runtime error in isAuthentic"
                      | some false => .error "Incoming packet is not authentic, discarding"
                      | some true => parseUsmTail zp (c5 + n5) sp5 resp
                  else parseUsmTail packet (c5 + n5) sp5 resp
  else .ok (packet, resp, c0)

/-- The SEQUENCE arm of the scoped-PDU switch (v3.go lines 927-951):
truncate the buffer to the outer BER length (discarding any decryption
padding) and parse contextEngineID and contextName. -/
def parseScopedSeq (packet : List Nat) (c0 : Nat) (resp : SnmpPacket) :
    Except String (List Nat × Nat × SnmpPacket) :=
  let tl := parseLength (packet.drop c0)
  let packet1 := packet.take (c0 + tl.1)
  let c1 := c0 + tl.2
  match parseRawField (packet1.drop c1) with
  | .error e => .error ("Error parsing SNMPV3 contextEngineID: " ++ e)
  | .ok (rawCtx, n1) =>
    let c2 := c1 + n1
    let resp1 := match rawCtx with
      | .str s => {resp with contextEngineID := s}
      | _ => resp
    match parseRawField (packet1.drop c2) with
    | .error e => .error ("Error parsing SNMPV3 contextName: " ++ e)
    | .ok (rawName, n2) =>
      let resp2 := match rawName with
        | .str s => {resp1 with contextName := s}
        | _ => resp1
      .ok (packet1, c2 + n2, resp2)

/-- Stage 3 of `extractV3Packet` (v3.go lines 871-956): an OCTET STRING
at the cursor is an encrypted scoped PDU — rebuild the IV, decrypt in
place and fall through to the SEQUENCE arm; a SEQUENCE is parsed
directly; anything else is an error.  `desD` is the per-block DES
decryption, `aesB` the per-block AES encryption (CFB decryption also
uses the forward AES transform). -/
def extractScopedPDU (desD aesB : List Nat → List Nat → List Nat)
    (packet : List Nat) (c0 : Nat) (resp : SnmpPacket) :
    Except String (List Nat × Nat × SnmpPacket) :=
  if packet.getD c0 256 = OctetStringTag then
    let ctmp := c0 + (parseLength (packet.drop c0)).2
    match (if resp.securityModel = UserSecurityModel then
        match resp.securityParameters with
        | none => .error "response.SecurityModel indicates the User Security Model, but response.SecurityParameters is not of type &UsmSecurityParameters"
        | some secParams =>
          match genlocalkey secParams.authenticationProtocol secParams.privacyPassphrase
              secParams.authoritativeEngineID with
          | none => .error "panic: runtime error: integer divide by zero"
          | some privkey =>
            if secParams.privacyProtocol = AES then
              let iv := putUint32BE secParams.authoritativeEngineBoots ++
                putUint32BE secParams.authoritativeEngineTime ++
                (secParams.privacyParameters ++ List.replicate 8 0).take 8
              let plaintext := cfbDec (aesB (privkey.take 16)) iv (packet.drop ctmp)
              .ok (packet.take c0 ++ plaintext)
            else
              if (packet.drop ctmp).length % 8 ≠ 0 then
                .error "Error decrypting ScopedPDU: not multiple of des block size."
              else if secParams.privacyParameters.length < 8 then
                .error "panic: runtime error: index out of range"
              else
                let iv := List.zipWith Nat.xor ((privkey.drop 8).take 8)
                  (secParams.privacyParameters.take 8)
                let plaintext := cbcDec (desD (privkey.take 8)) iv (packet.drop ctmp)
                .ok (packet.take c0 ++ plaintext)
      else .ok packet : Except String (List Nat)) with
    | .error e => .error e
    | .ok packet1 => parseScopedSeq packet1 c0 resp
  else if packet.getD c0 256 = SequenceTag then parseScopedSeq packet c0 resp
  else .error "Error parsing SNMPV3 scoped PDU"

/-- `extractV3Packet` (v3.go lines 723-957): the three stages in
sequence.  Returns the (possibly zeroed, decrypted and truncated)
buffer, the final cursor and the populated response packet. -/
def extractV3Packet (desD aesB : List Nat → List Nat → List Nat)
    (packet : List Nat) (cursor : Nat) (response : SnmpPacket)
    (origAuthEngineID : List Nat) : Except String (List Nat × Nat × SnmpPacket) :=
  match parseV3GlobalData packet cursor response with
  | .error e => .error e
  | .ok (resp1, c1) =>
    match parseV3UsmAndAuth packet c1 resp1 origAuthEngineID with
    | .error e => .error e
    | .ok (packet2, resp2, c2) => extractScopedPDU desD aesB packet2 c2 resp2

/-! ## Discovery (v3.go lines 350-491) -/

/-- The synthetic discovery probe `blankPacket`
(v3.go lines 399-406): Reportable|NoAuthNoPriv flags, empty USM
parameters, GetRequest. -/
def discoveryProbe : SnmpPacket :=
  { version := Version3
    msgFlags := Reportable ||| NoAuthNoPriv
    securityModel := UserSecurityModel
    securityParameters := some emptyUsmSecurityParameters
    pduType := GetRequest
    contextEngineID := []
    contextName := []
    msgID := 0 }

/-- `storeSecurityParameters` (v3.go lines 428-458): copy the
authoritative engine id/boots/time of a response into the connection
parameters, and default the connection context engine id to the
learned engine id when it was empty. -/
def storeSecurityParameters (x : GoSNMP) (result : SnmpPacket) : Except String GoSNMP :=
  if x.version ≠ Version3 ∨ result.version ≠ Version3 then
    .error "storeParameters called with non Version3 connection or packet"
  else if x.securityModel ≠ result.securityModel then
    .error "connection security model does not match security model extracted from packet"
  else if result.securityModel = UserSecurityModel then
    match result.securityParameters with
    | none => .error "result.SecurityModel indicates the User Security Model, but result.SecurityParameters is not of type &UsmSecurityParameters"
    | some newSecParams =>
      let x1 := match x.securityParameters with
        | some connSecParams =>
          let connSecParams2 :=
            {connSecParams with
              authoritativeEngineID := newSecParams.authoritativeEngineID
              authoritativeEngineBoots := newSecParams.authoritativeEngineBoots
              authoritativeEngineTime := newSecParams.authoritativeEngineTime}
          {x with securityParameters := some connSecParams2}
        | none => x
      if x1.contextEngineID = [] then
        .ok {x1 with contextEngineID := newSecParams.authoritativeEngineID}
      else .ok x1
  else .ok x

/-- `updatePktSecurityParameters` (v3.go lines 460-491): copy the
connection's authoritative engine parameters into an outgoing packet,
and default the packet context engine id to the connection's. -/
def updatePktSecurityParameters (x : GoSNMP) (packetOut : SnmpPacket) :
    Except String SnmpPacket :=
  if x.version ≠ Version3 ∨ packetOut.version ≠ Version3 then
    .error "updatePktSecurityParameters called with non Version3 connection or packet"
  else if x.securityModel ≠ packetOut.securityModel then
    .error "connection security model does not match security model extracted from packet"
  else
    match (if x.securityModel = UserSecurityModel then
        match x.securityParameters, packetOut.securityParameters with
        | none, _ => .error "connection indicates UserSecurityModel but connection SecurityParameters are not of type *UsmSecurityParameters"
        | _, none => .error "packetOut.SecurityModel indicates the UserSecurityModel, but packetOut.SecurityParameters is not of type *UsmSecurityParameters"
        | some connSp, some pktSp =>
          let pktSp2 :=
            {pktSp with
              authoritativeEngineID := connSp.authoritativeEngineID
              authoritativeEngineBoots := connSp.authoritativeEngineBoots
              authoritativeEngineTime := connSp.authoritativeEngineTime}
          .ok {packetOut with securityParameters := some pktSp2}
      else .ok packetOut : Except String SnmpPacket) with
    | .error e => .error e
    | .ok packetOut1 =>
      if packetOut1.contextEngineID = [] then
        .ok {packetOut1 with contextEngineID := x.contextEngineID}
      else .ok packetOut1

/-- `negotiateInitialSecurityParameters` (v3.go lines 383-426): when
the connection has no authoritative engine id yet, send the discovery
probe with an empty PDU list through `sendOneRequest` (external
transport, entering as the oracle `send`), store the reported engine
parameters and refresh the outgoing packet. -/
def negotiateInitialSecurityParameters (send : List Unit → SnmpPacket → Except String SnmpPacket)
    (x : GoSNMP) (packetOut : SnmpPacket) : Except String (GoSNMP × SnmpPacket) :=
  if x.version ≠ Version3 ∨ packetOut.version ≠ Version3 then
    .error "negotiateInitialSecurityParameters called with non Version3 connection or packet"
  else if x.securityModel ≠ packetOut.securityModel then
    .error "connection security model does not match security model defined in packet"
  else if packetOut.securityModel = UserSecurityModel then
    match packetOut.securityParameters with
    | none => .error "packetOut.SecurityModel indicates the User Security Model, but packetOut.SecurityParameters is not of type &UsmSecurityParameters"
    | some secParams =>
      if secParams.authoritativeEngineID = [] then
        match send [] discoveryProbe with
        | .error e => .error e
        | .ok result =>
          match storeSecurityParameters x result with
          | .error e => .error e
          | .ok x1 =>
            match updatePktSecurityParameters x1 packetOut with
            | .error e => .error e
            | .ok packetOut1 => .ok (x1, packetOut1)
      else .ok (x, packetOut)
  else .ok (x, packetOut)

/-! ## Concrete instances used by closed theorems -/

/-- Identity per-block cipher, a legitimate instantiation of the
abstract block-transform parameters for closed statements. -/
def idBlock : List Nat → List Nat → List Nat := fun _ b => b

/-- A constant 16-byte block transform (used where only the AES output
size matters). -/
def constBlock16 : List Nat → List Nat → List Nat := fun _ _ => List.replicate 16 0

/-- Concrete USM parameters with MD5 auth and a non-empty passphrase. -/
def exUsmAuth : UsmSecurityParameters :=
  { authoritativeEngineID := [1, 2, 3, 4, 5]
    authoritativeEngineBoots := 1
    authoritativeEngineTime := 2
    userName := [117]
    authenticationParameters := []
    privacyParameters := []
    authenticationProtocol := 2
    privacyProtocol := 0
    authenticationPassphrase := [104, 105]
    privacyPassphrase := []
    localDESSalt := 0
    localAESSalt := 0 }

/-- Concrete authNoPriv version-3 packet. -/
def exPacketAuth : SnmpPacket :=
  { version := 3, msgFlags := 1, securityModel := 3
    securityParameters := some exUsmAuth
    pduType := 160, contextEngineID := [], contextName := [], msgID := 0 }

/-- Concrete version-2 packet (authenticate must pass it through). -/
def exPacketV2 : SnmpPacket :=
  { version := 2, msgFlags := 1, securityModel := 3
    securityParameters := some exUsmAuth
    pduType := 160, contextEngineID := [], contextName := [], msgID := 0 }

/-- Concrete packet whose USM parameters carry an empty authentication
passphrase (the C7 panic case). -/
def exPacketEmptyPass : SnmpPacket :=
  { version := 3, msgFlags := 1, securityModel := 3
    securityParameters := some {exUsmAuth with authenticationPassphrase := []}
    pduType := 160, contextEngineID := [], contextName := [], msgID := 0 }

/-- Concrete connection whose USM parameters carry an empty
authentication passphrase under AuthNoPriv flags. -/
def exConnEmptyPass : GoSNMP :=
  { version := 3, msgFlags := 1, securityModel := 3
    securityParameters := some {exUsmAuth with authenticationPassphrase := []}
    contextEngineID := [], msgID := 0 }

/-- Concrete USM parameters with DES privacy and the 32-bit DES salt
counter at its maximum value. -/
def exUsmDESMax : UsmSecurityParameters :=
  { authoritativeEngineID := []
    authoritativeEngineBoots := 0
    authoritativeEngineTime := 0
    userName := []
    authenticationParameters := []
    privacyParameters := []
    authenticationProtocol := 2
    privacyProtocol := 2
    authenticationPassphrase := [104]
    privacyPassphrase := [112]
    localDESSalt := 4294967295
    localAESSalt := 0 }

/-- Concrete AuthPriv connection whose DES salt counter is about to
wrap. -/
def exConnDESMax : GoSNMP :=
  { version := 3, msgFlags := 3, securityModel := 3
    securityParameters := some exUsmDESMax
    contextEngineID := [], msgID := 0 }

/-- Concrete AuthPriv outgoing packet matching `exConnDESMax`. -/
def exPacketDESMax : SnmpPacket :=
  { version := 3, msgFlags := 3, securityModel := 3
    securityParameters := some exUsmDESMax
    pduType := 160, contextEngineID := [], contextName := [], msgID := 0 }

/-- Concrete USM parameters with DES privacy and an 8-byte salt, used
by the DES padding counterexample. -/
def exUsmDES : UsmSecurityParameters :=
  { authoritativeEngineID := []
    authoritativeEngineBoots := 0
    authoritativeEngineTime := 0
    userName := []
    authenticationParameters := []
    privacyParameters := List.replicate 8 0
    authenticationProtocol := 2
    privacyProtocol := 2
    authenticationPassphrase := [104]
    privacyPassphrase := [112]
    localDESSalt := 0
    localAESSalt := 0 }

/-- Concrete AuthPriv DES packet whose framed scoped PDU is exactly
8 bytes long (so already a multiple of the DES block size). -/
def exPacketDES : SnmpPacket :=
  { version := 3, msgFlags := 3, securityModel := 3
    securityParameters := some exUsmDES
    pduType := 160, contextEngineID := [], contextName := [], msgID := 0 }

/-- Concrete USM parameters with AES privacy. -/
def exUsmAES : UsmSecurityParameters :=
  { authoritativeEngineID := [9, 8, 7]
    authoritativeEngineBoots := 5
    authoritativeEngineTime := 6
    userName := [117]
    authenticationParameters := []
    privacyParameters := []
    authenticationProtocol := 3
    privacyProtocol := 3
    authenticationPassphrase := [104]
    privacyPassphrase := [112]
    localDESSalt := 0
    localAESSalt := 41 }

/-- Concrete AuthPriv AES connection. -/
def exConnAES : GoSNMP :=
  { version := 3, msgFlags := 3, securityModel := 3
    securityParameters := some exUsmAES
    contextEngineID := [], msgID := 0 }

/-- Concrete AuthPriv AES outgoing packet. -/
def exPacketAES : SnmpPacket :=
  { version := 3, msgFlags := 3, securityModel := 3
    securityParameters := some exUsmAES
    pduType := 160, contextEngineID := [], contextName := [], msgID := 0 }

/-- A concrete inbound version-3 NoAuthNoPriv message in wire format:
outer SEQUENCE, msgID 7, msgMaxSize, flags 0x00, security model 3, USM
parameter block, plaintext scoped PDU. -/
def exInbound : List Nat :=
  [48, 51] ++
  [2, 1, 7] ++ [2, 2, 255, 255] ++ [4, 1, 0] ++ [2, 1, 3] ++
  [4, 17] ++ [48, 15] ++ [4, 0] ++ [2, 1, 0] ++ [2, 1, 0] ++ [4, 1, 117] ++
  [4, 0] ++ [4, 0] ++
  [48, 7] ++ [4, 0] ++ [4, 0] ++ [160, 1, 0]

/-- The pre-populated response packet a caller hands to
`extractV3Packet` (connection protocols and passphrases filled in). -/
def exRespInit : SnmpPacket :=
  { version := 3, msgFlags := 0, securityModel := 0
    securityParameters := some
      { authoritativeEngineID := []
        authoritativeEngineBoots := 0
        authoritativeEngineTime := 0
        userName := []
        authenticationParameters := []
        privacyParameters := []
        authenticationProtocol := 2
        privacyProtocol := 0
        authenticationPassphrase := [104]
        privacyPassphrase := []
        localDESSalt := 0
        localAESSalt := 0 }
    pduType := 0, contextEngineID := [], contextName := [], msgID := 0 }

/-- Concrete discovery-response packet. -/
def exDiscoveryResult : SnmpPacket :=
  { version := 3, msgFlags := 0, securityModel := 3
    securityParameters := some
      {emptyUsmSecurityParameters with
        authoritativeEngineID := [0, 0, 0, 0, 2]
        authoritativeEngineBoots := 9
        authoritativeEngineTime := 77}
    pduType := 0xa8, contextEngineID := [], contextName := [], msgID := 1 }

/-- Concrete uninitialized connection for the discovery witness. -/
def exConnUninit : GoSNMP :=
  { version := 3, msgFlags := 1, securityModel := 3
    securityParameters := some {exUsmAuth with authoritativeEngineID := []}
    contextEngineID := [], msgID := 0 }

/-- Concrete outgoing packet for the discovery witness (no engine id
learned yet). -/
def exPacketUninit : SnmpPacket :=
  { version := 3, msgFlags := 1, securityModel := 3
    securityParameters := some {exUsmAuth with authoritativeEngineID := []}
    pduType := 160, contextEngineID := [], contextName := [], msgID := 0 }

/-- The concrete framed message `prepV3pPDU` produces for
`exPacketAuth` with msgid 7 and a 2-byte PDU body: the 12 reserved
zero bytes sit at offset 40. -/
def exFramedAuth : List Nat :=
  [48, 16, 2, 4, 0, 0, 0, 7, 2, 2, 255, 255, 4, 1, 1, 2, 1, 3, 4, 34, 48, 32, 4, 5,
   1, 2, 3, 4, 5, 2, 1, 1, 2, 1, 2, 4, 1, 117, 4, 12, 0, 0, 0, 0, 0, 0, 0, 0, 0, 0,
   0, 0, 4, 0, 48, 6, 4, 0, 4, 0, 5, 0]

/-! # Theorems -/

/-! ## Digest lengths and hash basics -/

theorem toLE4_length (x : Nat) : (toLE4 x).length = 4 := rfl

theorem toBE4_length (x : Nat) : (toBE4 x).length = 4 := rfl

theorem putUint32BE_length (x : Nat) : (putUint32BE x).length = 4 := rfl

theorem putUint64BE_length (x : Nat) : (putUint64BE x).length = 8 := rfl

theorem md5Digest_length (st : Nat × Nat × Nat × Nat) : (md5Digest st).length = 16 := by
  obtain ⟨a, b, c, d⟩ := st
  simp [md5Digest, toLE4]

theorem md5_length (m : List Nat) : (md5 m).length = 16 := md5Digest_length _

theorem sha1Digest_length (st : Nat × Nat × Nat × Nat × Nat) :
    (sha1Digest st).length = 20 := by
  obtain ⟨a, b, c, d, e⟩ := st
  simp [sha1Digest, toBE4]

theorem sha1_length (m : List Nat) : (sha1 m).length = 20 := sha1Digest_length _

/-! ## The cyclic keying stream -/

theorem range_chunk_flatMap (a : Nat) (f : Nat → Nat) :
    ∀ b : Nat, (List.range b).flatMap (fun c => (List.range a).map (fun e => f (a * c + e))) =
      (List.range (b * a)).map f := by
  intro b
  induction b with
  | zero => simp
  | succ n ih =>
    rw [List.range_succ, List.flatMap_append, ih, Nat.succ_mul, List.range_add,
      List.map_append]
    simp [List.map_map, Function.comp_def, Nat.mul_comm a n]

theorem hmacChunkStream_eq (p : List Nat) :
    hmacChunkStream p = (List.range 1048576).map (fun i => p.getD (i % p.length) 0) := by
  have h := range_chunk_flatMap 64 (fun i => p.getD (i % p.length) 0) 16384
  norm_num at h
  simpa [hmacChunkStream] using h

theorem md5HMACcore_eq_localizeSpec (p e : List Nat) :
    md5HMACcore p e = localizeSpec md5 p e := by
  rw [md5HMACcore, localizeSpec, hmacChunkStream_eq]

theorem shaHMACcore_eq_localizeSpec (p e : List Nat) :
    shaHMACcore p e = localizeSpec sha1 p e := by
  rw [shaHMACcore, localizeSpec, hmacChunkStream_eq]

theorem genlocalkey_eq_core (proto : Nat) (p e : List Nat) (hp : p ≠ []) :
    genlocalkey proto p e = some (genlocalkeyCore proto p e) := by
  by_cases h : proto = SHA <;>
    simp [genlocalkey, genlocalkeyCore, shaHMAC, md5HMAC, h, hp]

theorem genlocalkeyCore_eq_localizeSpec (proto : Nat) (p e : List Nat) :
    genlocalkeyCore proto p e = localizeSpec (hashOf proto) p e := by
  by_cases h : proto = SHA <;>
    simp [genlocalkeyCore, hashOf, h, md5HMACcore_eq_localizeSpec, shaHMACcore_eq_localizeSpec]

theorem localizeSpec_length (H : List Nat → List Nat) (n : Nat)
    (hH : ∀ m, (H m).length = n) (p e : List Nat) :
    (localizeSpec H p e).length = n := by
  rw [localizeSpec]
  exact hH _

theorem genlocalkeyCore_length (proto : Nat) (p e : List Nat) :
    (genlocalkeyCore proto p e).length = 16 ∨ (genlocalkeyCore proto p e).length = 20 := by
  by_cases h : proto = SHA
  · right
    rw [genlocalkeyCore, if_pos h]
    exact sha1_length _
  · left
    rw [genlocalkeyCore, if_neg h]
    exact md5_length _

/-- C1: for every non-empty passphrase and engine id, key localization
builds the 1,048,576-byte cyclic stream, hashes it in 64-byte chunks to
obtain Ku, and returns H(Ku || engine_id || Ku); the result is 16 bytes
for MD5 and 20 bytes for SHA-1 and is deterministic. -/
theorem key_localization_correct (proto : Nat) (p e : List Nat) (hp : p ≠ []) :
    genlocalkey proto p e = some (localizeSpec (hashOf proto) p e) ∧
    (localizeSpec md5 p e).length = 16 ∧
    (localizeSpec sha1 p e).length = 20 ∧
    ∀ p2 e2, p2 = p → e2 = e → genlocalkey proto p2 e2 = genlocalkey proto p e := by
  refine ⟨?_, localizeSpec_length md5 16 md5_length p e,
    localizeSpec_length sha1 20 sha1_length p e, ?_⟩
  · rw [genlocalkey_eq_core proto p e hp, genlocalkeyCore_eq_localizeSpec]
  · rintro p2 e2 rfl rfl
    rfl

/-- Witness for C1 at passphrase `[104]` and engine id `[2]`. -/
theorem key_localization_correct_witness :
    (([104] : List Nat) ≠ []) ∧
    (genlocalkey MD5 [104] [2] = some (localizeSpec (hashOf MD5) [104] [2]) ∧
     (localizeSpec md5 [104] [2]).length = 16 ∧
     (localizeSpec sha1 [104] [2]).length = 20 ∧
     ∀ p2 e2, p2 = ([104] : List Nat) → e2 = ([2] : List Nat) →
       genlocalkey MD5 p2 e2 = genlocalkey MD5 [104] [2]) :=
  ⟨by decide, key_localization_correct MD5 [104] [2] (by decide)⟩

/-! ## HMAC structure -/

theorem zipWith_replicate_of_le (f : Nat → Nat → Nat) (b : Nat) :
    ∀ (l : List Nat) (n : Nat), l.length ≤ n →
      List.zipWith f l (List.replicate n b) = l.map (f · b) := by
  intro l
  induction l with
  | nil => intro n _; simp
  | cons x xs ih =>
    intro n hn
    cases n with
    | zero => simp at hn
    | succ m =>
      simp only [List.replicate_succ, List.zipWith_cons_cons, List.map_cons]
      rw [ih m (by simpa using hn)]

theorem extkey64_eq (key : List Nat) (hk : key.length ≤ 64) :
    extkey64 key = key ++ List.replicate (64 - key.length) 0 := by
  rw [extkey64, List.take_append_eq_append_take, List.take_all_of_le hk,
    List.take_replicate]
  congr 2
  omega

theorem map_xor_extkey (key : List Nat) (c : Nat) (hk : key.length ≤ 64) :
    (extkey64 key).map (fun b => b ^^^ c) =
      List.zipWith Nat.xor (key ++ List.replicate (64 - key.length) 0)
        (List.replicate 64 c) := by
  rw [← extkey64_eq key hk, zipWith_replicate_of_le]
  · rfl
  · rw [extkey64_eq key hk]
    simp
    omega

theorem hmacTag_eq_hmacRFC2104 (H : List Nat → List Nat) (key msg : List Nat)
    (hk : key.length ≤ 64) :
    hmacTag H key msg = hmacRFC2104 H key msg := by
  simp only [hmacTag, hmacRFC2104]
  rw [map_xor_extkey key 0x5c hk, map_xor_extkey key 0x36 hk]

theorem hmacTag_length (H : List Nat → List Nat) (n : Nat)
    (hH : ∀ m, (H m).length = n) (key msg : List Nat) :
    (hmacTag H key msg).length = n := by
  rw [hmacTag]
  exact hH _

theorem hashOf_tag_take12_length (proto : Nat) (key msg : List Nat) :
    ((hmacTag (hashOf proto) key msg).take 12).length = 12 := by
  rw [List.length_take]
  by_cases h : proto = SHA
  · rw [hashOf, if_pos h, hmacTag_length sha1 20 sha1_length]
    decide
  · rw [hashOf, if_neg h, hmacTag_length md5 16 md5_length]
    decide

theorem genlocalkeyCore_length_le (proto : Nat) (p e : List Nat) :
    (genlocalkeyCore proto p e).length ≤ 64 := by
  rcases genlocalkeyCore_length proto p e with h | h <;> omega

/-! ## authenticate: pass-through and in-place frame effect -/

theorem authenticate_auth (packet : SnmpPacket) (msg : List Nat) (s : Nat)
    (sp : UsmSecurityParameters)
    (hv : packet.version = Version3) (hf : ¬packet.msgFlags &&& AuthNoPriv = 0)
    (hm : packet.securityModel = UserSecurityModel)
    (hsp : packet.securityParameters = some sp)
    (hpass : sp.authenticationPassphrase ≠ []) (hlen : s + 12 ≤ msg.length) :
    authenticate packet msg s = .ok (msg.take s ++
      (hmacTag (hashOf sp.authenticationProtocol)
        (genlocalkeyCore sp.authenticationProtocol sp.authenticationPassphrase
          sp.authoritativeEngineID) msg).take 12 ++
      msg.drop (s + 12)) := by
  rw [authenticate, if_neg (by simp [hv]), if_neg hf, if_neg (by simp [hm]), hsp]
  simp only [genlocalkey_eq_core _ _ _ hpass]
  rw [if_pos hlen]

/-- C10: authenticate returns the buffer unchanged (without error) when
the packet is not version 3 or the Auth flag is clear, and otherwise
modifies exactly the 12 bytes in `[authParamStart, authParamStart+12)`. -/
theorem authenticate_frame_effect (packet : SnmpPacket) (msg : List Nat) (s : Nat) :
    ((packet.version ≠ Version3 ∨ packet.msgFlags &&& AuthNoPriv = 0) →
      authenticate packet msg s = .ok msg) ∧
    (packet.version = Version3 → ¬packet.msgFlags &&& AuthNoPriv = 0 →
      packet.securityModel = UserSecurityModel →
      ∀ sp, packet.securityParameters = some sp →
      sp.authenticationPassphrase ≠ [] → s + 12 ≤ msg.length →
      ∃ out, authenticate packet msg s = .ok out ∧ out.length = msg.length ∧
        ∀ i, i < s ∨ s + 12 ≤ i → out.get? i = msg.get? i) := by
  constructor
  · rintro (h | h)
    · rw [authenticate, if_pos h]
    · rw [authenticate]
      by_cases hv : packet.version ≠ Version3
      · rw [if_pos hv]
      · rw [if_neg hv, if_pos h]
  · intro hv hf hm sp hsp hpass hlen
    refine ⟨_, authenticate_auth packet msg s sp hv hf hm hsp hpass hlen, ?_, ?_⟩
    · have h12 := hashOf_tag_take12_length sp.authenticationProtocol
        (genlocalkeyCore sp.authenticationProtocol sp.authenticationPassphrase
          sp.authoritativeEngineID) msg
      simp only [List.length_append, h12, List.length_take, List.length_drop]
      omega
    · intro i hi
      have h12 := hashOf_tag_take12_length sp.authenticationProtocol
        (genlocalkeyCore sp.authenticationProtocol sp.authenticationPassphrase
          sp.authoritativeEngineID) msg
      have hts : (msg.take s).length = s := by
        rw [List.length_take]
        omega
      rw [List.append_assoc]
      rcases hi with hi | hi
      · rw [List.get?_append (by omega), List.get?_take hi]
      · rw [List.get?_append_right (by omega)]
        rw [List.get?_append_right (by rw [h12]; omega)]
        rw [h12, hts, List.get?_drop]
        congr 1
        omega

/-- Witness for C10: a version-2 packet passes through unchanged, and a
version-3 AuthNoPriv packet is modified only inside the 12-byte
window. -/
theorem authenticate_frame_effect_witness :
    (authenticate exPacketV2 [1, 2, 3] 0 = .ok [1, 2, 3]) ∧
    (∃ out, authenticate exPacketAuth (List.replicate 14 9) 1 = .ok out ∧
      out.length = (List.replicate 14 9 : List Nat).length ∧
      ∀ i, i < 1 ∨ 1 + 12 ≤ i → out.get? i = (List.replicate 14 9 : List Nat).get? i) :=
  ⟨(authenticate_frame_effect exPacketV2 [1, 2, 3] 0).1 (Or.inl (by decide)),
   (authenticate_frame_effect exPacketAuth (List.replicate 14 9) 1).2 rfl (by decide) rfl
     exUsmAuth rfl (by decide) (by decide)⟩

/-! ## isAuthentic accepts any prefix of the correct tag -/

theorem authCompare_of_agree (result : List Nat) :
    ∀ (params : List Nat) (k : Nat),
    (∀ i, i < params.length → params.get? i = result.get? (k + i)) →
    authCompare result params k = some true := by
  intro params
  induction params with
  | nil => intro k _; rfl
  | cons v rest ih =>
    intro k h
    have h0 := h 0 (by simp)
    rw [Nat.add_zero] at h0
    simp only [List.get?] at h0
    rw [authCompare]
    cases hr : result.get? k with
    | none =>
      rw [hr] at h0
      exact absurd h0 (by simp)
    | some r =>
      rw [hr] at h0
      have hv : r = v := by
        injection h0 with h0'
        exact h0'.symm
      show (if r ≠ v then some false else authCompare result rest (k + 1)) = some true
      rw [if_neg (by simp [hv])]
      refine ih (k + 1) ?_
      intro i hi
      have := h (i + 1) (by simpa using Nat.succ_lt_succ hi)
      simpa [Nat.add_comm, Nat.add_assoc, Nat.add_left_comm] using this

/-- C9: isAuthentic compares the received authentication parameters
against only a same-length prefix of the recomputed 12-byte tag, so any
prefix of the correct tag — including the empty string — is accepted
as authentic. -/
theorem isAuthentic_accepts_tag_prefixes (msg ap : List Nat) (proto : Nat)
    (pass eid : List Nat) (hpass : pass ≠ [])
    (hpre : ap = ((hmacTag (hashOf proto) (genlocalkeyCore proto pass eid) msg).take 12).take
      ap.length) :
    isAuthentic msg ap proto pass eid = some true := by
  rw [isAuthentic, genlocalkey_eq_core _ _ _ hpass]
  show authCompare _ _ 0 = some true
  apply authCompare_of_agree
  intro i hi
  rw [Nat.zero_add]
  conv_lhs => rw [hpre]
  exact List.get?_take hi

/-- Witness for C9: the empty authentication-parameters string is
accepted for a fresh tag. -/
theorem isAuthentic_accepts_tag_prefixes_witness :
    (([104] : List Nat) ≠ []) ∧ isAuthentic [] [] MD5 [104] [2] = some true :=
  ⟨by decide, isAuthentic_accepts_tag_prefixes [] [] MD5 [104] [2] (by decide) rfl⟩

/-! ## Empty passphrases: validation versus localization (C7) -/

/-- C7 counterexample: key localization on an empty passphrase panics
(`none` models the Go integer-divide-by-zero panic) instead of
returning an error value; `authenticate` then swallows the panic with
its deferred `recover()` and returns neither a buffer nor an error. -/
theorem empty_passphrase_panics_cx :
    genlocalkey MD5 [] [0, 2] = none ∧
    authenticate exPacketEmptyPass (List.replicate 12 0) 0 = .recovered := by
  constructor
  · rfl
  · rfl

/-- C7 (amended): the configuration validator rejects an empty
authentication passphrase under the Auth flag with an error before key
localization can run, and key localization itself never panics on a
non-empty passphrase; but `md5HMAC`/`shaHMAC` have no error return and
panic when handed an empty passphrase directly. -/
theorem validate_rejects_empty_passphrase (x : GoSNMP) (usm : UsmSecurityParameters)
    (proto : Nat) (p e : List Nat)
    (hm : x.securityModel = UserSecurityModel)
    (hsp : x.securityParameters = some usm)
    (hlvl : x.msgFlags &&& AuthPriv = AuthNoPriv ∨ x.msgFlags &&& AuthPriv = AuthPriv)
    (hpass : usm.authenticationPassphrase = [])
    (hp : p ≠ []) :
    (∃ emsg, validateParametersV3 x = .error emsg) ∧
    (∃ k, genlocalkey proto p e = some k) := by
  constructor
  · rcases hlvl with h1 | h3
    · simp only [validateParametersV3, hm, hsp, h1, ne_eq, not_true_eq_false, ite_false,
        if_neg (show AuthNoPriv ≠ AuthPriv by decide), if_pos rfl]
      by_cases hap : usm.authenticationProtocol ≤ NoAuth
      · exact ⟨"SecurityParameters.AuthenticationProtocol is required", by simp [hap]⟩
      · exact ⟨"SecurityParameters.AuthenticationPassphrase is required", by simp [hap, hpass]⟩
    · simp only [validateParametersV3, hm, hsp, h3, ne_eq, not_true_eq_false, ite_false,
        if_pos rfl]
      by_cases hpp : usm.privacyProtocol ≤ NoPriv
      · exact ⟨"SecurityParameters.PrivacyProtocol is required", by simp [hpp]⟩
      · by_cases hpw : usm.privacyPassphrase = []
        · exact ⟨"SecurityParameters.PrivacyPassphrase is required", by simp [hpp, hpw]⟩
        · by_cases hap : usm.authenticationProtocol ≤ NoAuth
          · exact ⟨"SecurityParameters.AuthenticationProtocol is required", by simp [hpp, hpw, hap]⟩
          · exact ⟨"SecurityParameters.AuthenticationPassphrase is required", by simp [hpp, hpw, hap, hpass]⟩
  · exact ⟨_, genlocalkey_eq_core proto p e hp⟩

/-- Witness for C7 (amended) at a concrete misconfigured connection. -/
theorem validate_rejects_empty_passphrase_witness :
    (exConnEmptyPass.securityModel = UserSecurityModel ∧
     exConnEmptyPass.securityParameters = some {exUsmAuth with authenticationPassphrase := []} ∧
     (exConnEmptyPass.msgFlags &&& AuthPriv = AuthNoPriv ∨
      exConnEmptyPass.msgFlags &&& AuthPriv = AuthPriv) ∧
     ({exUsmAuth with authenticationPassphrase := []}).authenticationPassphrase = [] ∧
     ([104] : List Nat) ≠ []) ∧
    ((∃ emsg, validateParametersV3 exConnEmptyPass = .error emsg) ∧
     (∃ k, genlocalkey MD5 [104] [2] = some k)) :=
  ⟨⟨rfl, rfl, Or.inl (by decide), rfl, by decide⟩,
   validate_rejects_empty_passphrase exConnEmptyPass
     {exUsmAuth with authenticationPassphrase := []} MD5 [104] [2]
     rfl rfl (Or.inl (by decide)) rfl (by decide)⟩

/-! ## Salt counters (C6) -/

/-- C6 counterexample: with the connection DES salt counter at
2^32 − 1, a privacy-enabled build succeeds — no SaltExhausted error —
and the counter silently wraps to 0, so salt values repeat. -/
theorem salt_wrap_no_error_cx :
    buildPacket3 exConnDESMax exPacketDESMax =
      .ok ({ exConnDESMax with
             msgID := 1
             securityParameters := some {exUsmDESMax with localDESSalt := 0} },
           { exPacketDESMax with
             securityParameters :=
               some {exUsmDESMax with privacyParameters := [0, 0, 0, 0, 0, 0, 0, 0]} }) ∧
    (0 : Nat) < 4294967295 := by
  constructor
  · rfl
  · decide

/-- C6 (amended): per privacy-enabled outbound build the connection DES
(resp. AES) salt counter is incremented exactly once, modulo 2^32
(resp. 2^64); the build never fails on wrap-around, the counter simply
returns to 0 and salts repeat. -/
theorem salt_counter_increments_mod (x : GoSNMP) (pkt : SnmpPacket)
    (base pktSp : UsmSecurityParameters)
    (hf : x.msgFlags &&& AuthPriv > AuthNoPriv) (hm : x.securityModel = UserSecurityModel)
    (hb : x.securityParameters = some base)
    (hpsp : pkt.securityParameters = some pktSp) :
    (base.privacyProtocol = DES →
      ∃ out, buildPacket3 x pkt = .ok out ∧
        out.1.securityParameters =
          some {base with localDESSalt := (base.localDESSalt + 1) % 4294967296}) ∧
    (base.privacyProtocol = AES →
      ∃ out, buildPacket3 x pkt = .ok out ∧
        out.1.securityParameters =
          some {base with localAESSalt := (base.localAESSalt + 1) % 18446744073709551616}) := by
  constructor
  · intro hdes
    simp only [buildPacket3, hb, hf, hm, hdes, if_pos (And.intro hf hm),
      if_neg (show DES ≠ AES by decide), if_pos rfl]
    by_cases hc : pkt.version = Version3 ∧ pkt.securityModel = UserSecurityModel ∧
        pkt.msgFlags &&& AuthPriv > AuthNoPriv
    · rw [if_pos hc, hpsp]
      exact ⟨_, rfl, rfl⟩
    · rw [if_neg hc]
      exact ⟨_, rfl, rfl⟩
  · intro haes
    simp only [buildPacket3, hb, hf, hm, haes, if_pos (And.intro hf hm), if_pos rfl]
    by_cases hc : pkt.version = Version3 ∧ pkt.securityModel = UserSecurityModel ∧
        pkt.msgFlags &&& AuthPriv > AuthNoPriv
    · rw [if_pos hc, hpsp]
      exact ⟨_, rfl, rfl⟩
    · rw [if_neg hc]
      exact ⟨_, rfl, rfl⟩

/-- Witness for C6 (amended) at a concrete AES connection with salt 41. -/
theorem salt_counter_increments_mod_witness :
    (exConnAES.msgFlags &&& AuthPriv > AuthNoPriv ∧
     exConnAES.securityModel = UserSecurityModel ∧
     exConnAES.securityParameters = some exUsmAES ∧
     exPacketAES.securityParameters = some exUsmAES) ∧
    (exUsmAES.privacyProtocol = AES →
      ∃ out, buildPacket3 exConnAES exPacketAES = .ok out ∧
        out.1.securityParameters =
          some {exUsmAES with localAESSalt := (exUsmAES.localAESSalt + 1) % 18446744073709551616}) :=
  ⟨⟨by decide, rfl, rfl, rfl⟩,
   (salt_counter_increments_mod exConnAES exPacketAES exUsmAES exUsmAES
     (by decide) rfl rfl rfl).2⟩

/-! ## Discovery (C8) -/

theorem storeSecurityParameters_spec (x : GoSNMP) (r : SnmpPacket)
    (csp nsp : UsmSecurityParameters)
    (hxv : x.version = Version3) (hrv : r.version = Version3)
    (hsm : x.securityModel = r.securityModel) (hrm : r.securityModel = UserSecurityModel)
    (hrsp : r.securityParameters = some nsp) (hcsp : x.securityParameters = some csp) :
    ∃ x2, storeSecurityParameters x r = .ok x2 ∧
      x2.securityParameters = some
        { csp with
          authoritativeEngineID := nsp.authoritativeEngineID
          authoritativeEngineBoots := nsp.authoritativeEngineBoots
          authoritativeEngineTime := nsp.authoritativeEngineTime } ∧
      x2.contextEngineID =
        (if x.contextEngineID = [] then nsp.authoritativeEngineID else x.contextEngineID) ∧
      x2.version = x.version ∧ x2.securityModel = x.securityModel := by
  rw [storeSecurityParameters, if_neg (by simp [hxv, hrv]), if_neg (by simp [hsm]),
    if_pos hrm, hrsp]
  simp only [hcsp]
  by_cases hctx : x.contextEngineID = []
  · rw [if_pos (by simpa using hctx)]
    exact ⟨_, rfl, rfl, by simp [hctx], rfl, rfl⟩
  · rw [if_neg (by simpa using hctx)]
    exact ⟨_, rfl, rfl, by simp [hctx], rfl, rfl⟩

theorem updatePktSecurityParameters_ok (x : GoSNMP) (pkt : SnmpPacket)
    (xsp pktSp : UsmSecurityParameters)
    (hxv : x.version = Version3) (hpv : pkt.version = Version3)
    (hsm : x.securityModel = pkt.securityModel)
    (hxsp : x.securityParameters = some xsp) (hpsp : pkt.securityParameters = some pktSp) :
    ∃ p2, updatePktSecurityParameters x pkt = .ok p2 := by
  rw [updatePktSecurityParameters, if_neg (by simp [hxv, hpv]), if_neg (by simp [hsm])]
  by_cases hum : x.securityModel = UserSecurityModel
  · rw [if_pos hum]
    simp only [hxsp, hpsp]
    by_cases hctx : pkt.contextEngineID = []
    · exact ⟨_, by rw [if_pos hctx]⟩
    · exact ⟨_, by rw [if_neg hctx]⟩
  · rw [if_neg hum]
    by_cases hctx : pkt.contextEngineID = []
    · exact ⟨{pkt with contextEngineID := x.contextEngineID}, by simp [hctx]⟩
    · exact ⟨pkt, by simp [hctx]⟩

/-- C8: from an uninitialized connection the first outbound build sends
the discovery probe (MsgFlags = Reportable|NoAuthNoPriv, empty USM
parameters, empty varbind list, PDUType GetRequest); on a successful
response the connection stores the reported authoritative engine
id/boots/time and defaults its context engine id to the learned engine
id when previously empty. -/
theorem discovery_negotiation (send : List Unit → SnmpPacket → Except String SnmpPacket)
    (x : GoSNMP) (packetOut r : SnmpPacket) (sp csp nsp : UsmSecurityParameters)
    (hxv : x.version = Version3) (hpv : packetOut.version = Version3)
    (hsm : x.securityModel = packetOut.securityModel)
    (hum : packetOut.securityModel = UserSecurityModel)
    (hsp : packetOut.securityParameters = some sp)
    (heid : sp.authoritativeEngineID = [])
    (hsend : send [] discoveryProbe = .ok r)
    (hrv : r.version = Version3) (hrm : r.securityModel = UserSecurityModel)
    (hrsp : r.securityParameters = some nsp)
    (hcsp : x.securityParameters = some csp) :
    discoveryProbe.msgFlags = (Reportable ||| NoAuthNoPriv) ∧
    discoveryProbe.securityParameters = some emptyUsmSecurityParameters ∧
    discoveryProbe.pduType = GetRequest ∧
    ∃ x2 p2, negotiateInitialSecurityParameters send x packetOut = .ok (x2, p2) ∧
      x2.securityParameters = some
        { csp with
          authoritativeEngineID := nsp.authoritativeEngineID
          authoritativeEngineBoots := nsp.authoritativeEngineBoots
          authoritativeEngineTime := nsp.authoritativeEngineTime } ∧
      x2.contextEngineID =
        (if x.contextEngineID = [] then nsp.authoritativeEngineID else x.contextEngineID) := by
  refine ⟨rfl, rfl, rfl, ?_⟩
  obtain ⟨x2, hx2, hx2sp, hx2ctx, hx2v, hx2m⟩ :=
    storeSecurityParameters_spec x r csp nsp hxv hrv (by rw [hsm, hum, hrm]) hrm hrsp hcsp
  obtain ⟨p2, hp2⟩ := updatePktSecurityParameters_ok x2 packetOut _ sp
    (by rw [hx2v, hxv]) hpv (by rw [hx2m, hsm]) hx2sp hsp
  refine ⟨x2, p2, ?_, hx2sp, hx2ctx⟩
  rw [negotiateInitialSecurityParameters, if_neg (by simp [hxv, hpv]),
    if_neg (by simp [hsm]), if_pos hum]
  simp only [hsp]
  rw [if_pos heid]
  simp only [hsend, hx2, hp2]

/-- Witness for C8 with a concrete transport oracle. -/
theorem discovery_negotiation_witness :
    (exConnUninit.version = Version3 ∧ exPacketUninit.version = Version3 ∧
     exConnUninit.securityModel = exPacketUninit.securityModel ∧
     exPacketUninit.securityModel = UserSecurityModel ∧
     (fun (_ : List Unit) (_ : SnmpPacket) => (Except.ok exDiscoveryResult : Except String SnmpPacket)) [] discoveryProbe =
       .ok exDiscoveryResult ∧
     exDiscoveryResult.version = Version3 ∧
     exDiscoveryResult.securityModel = UserSecurityModel) ∧
    (discoveryProbe.msgFlags = (Reportable ||| NoAuthNoPriv) ∧
     discoveryProbe.securityParameters = some emptyUsmSecurityParameters ∧
     discoveryProbe.pduType = GetRequest ∧
     ∃ x2 p2, negotiateInitialSecurityParameters
         (fun _ _ => (Except.ok exDiscoveryResult : Except String SnmpPacket)) exConnUninit exPacketUninit = .ok (x2, p2) ∧
       x2.securityParameters = some
         { {exUsmAuth with authoritativeEngineID := []} with
           authoritativeEngineID :=
             ({emptyUsmSecurityParameters with
               authoritativeEngineID := [0, 0, 0, 0, 2]
               authoritativeEngineBoots := 9
               authoritativeEngineTime := 77}).authoritativeEngineID
           authoritativeEngineBoots :=
             ({emptyUsmSecurityParameters with
               authoritativeEngineID := [0, 0, 0, 0, 2]
               authoritativeEngineBoots := 9
               authoritativeEngineTime := 77}).authoritativeEngineBoots
           authoritativeEngineTime :=
             ({emptyUsmSecurityParameters with
               authoritativeEngineID := [0, 0, 0, 0, 2]
               authoritativeEngineBoots := 9
               authoritativeEngineTime := 77}).authoritativeEngineTime } ∧
       x2.contextEngineID =
         (if exConnUninit.contextEngineID = [] then
           ({emptyUsmSecurityParameters with
             authoritativeEngineID := [0, 0, 0, 0, 2]
             authoritativeEngineBoots := 9
             authoritativeEngineTime := 77}).authoritativeEngineID
          else exConnUninit.contextEngineID)) :=
  ⟨⟨rfl, rfl, rfl, rfl, rfl, rfl, rfl⟩,
   discovery_negotiation (fun _ _ => (Except.ok exDiscoveryResult : Except String SnmpPacket)) exConnUninit exPacketUninit
     exDiscoveryResult {exUsmAuth with authoritativeEngineID := []}
     {exUsmAuth with authoritativeEngineID := []}
     {emptyUsmSecurityParameters with
       authoritativeEngineID := [0, 0, 0, 0, 2]
       authoritativeEngineBoots := 9
       authoritativeEngineTime := 77}
     rfl rfl rfl rfl rfl rfl rfl rfl rfl rfl rfl⟩

/-! ## Cipher-mode lemmas -/

theorem zipWith_xor_cancel : ∀ (x iv : List Nat), x.length ≤ iv.length →
    List.zipWith Nat.xor (List.zipWith Nat.xor x iv) iv = x := by
  intro x
  induction x with
  | nil => simp
  | cons a as ih =>
    intro iv h
    cases iv with
    | nil => simp at h
    | cons b bs =>
      simp only [List.zipWith_cons_cons]
      have hx : Nat.xor (Nat.xor a b) b = a := Nat.xor_cancel_right b a
      rw [hx, ih bs (by simpa using h)]

theorem cbcEnc_nil (E : List Nat → List Nat) (iv : List Nat) : cbcEnc E iv [] = [] := by
  rw [cbcEnc]
  simp

theorem cbcEnc_length (E : List Nat → List Nat) (hE : ∀ b, b.length = 8 → (E b).length = 8) :
    ∀ (n : Nat) (pt iv : List Nat), pt.length ≤ n → iv.length = 8 → 8 ∣ pt.length →
      (cbcEnc E iv pt).length = pt.length := by
  intro n
  induction n with
  | zero =>
    intro pt iv hle _ _
    have : pt = [] := List.length_eq_zero.mp (by omega)
    subst this
    rw [cbcEnc_nil]
  | succ n ih =>
    intro pt iv hle hiv hdvd
    by_cases hpt : pt = []
    · subst hpt
      rw [cbcEnc_nil]
    · rw [cbcEnc, dif_neg hpt]
      have hlen0 : pt.length ≠ 0 := fun hl => hpt (List.length_eq_zero.mp hl)
      have h8 : 8 ≤ pt.length := by
        rcases hdvd with ⟨k, hk⟩
        rcases Nat.eq_zero_or_pos k with rfl | hkp
        · omega
        · omega
      have hxor : (List.zipWith Nat.xor (pt.take 8) iv).length = 8 := by
        rw [List.length_zipWith, List.length_take, hiv]
        omega
      have hEc := hE _ hxor
      rw [List.length_append, hEc,
        ih (pt.drop 8) _ (by rw [List.length_drop]; omega) hEc
          (by rw [List.length_drop]; exact (Nat.dvd_sub' hdvd (by norm_num))),
        List.length_drop]
      omega

theorem cbcDec_nil (D : List Nat → List Nat) (iv : List Nat) : cbcDec D iv [] = [] := by
  rw [cbcDec]
  simp

theorem cbcDec_cbcEnc (E D : List Nat → List Nat)
    (hED : ∀ b, b.length = 8 → D (E b) = b) (hE : ∀ b, b.length = 8 → (E b).length = 8) :
    ∀ (n : Nat) (pt iv : List Nat), pt.length ≤ n → iv.length = 8 → 8 ∣ pt.length →
      cbcDec D iv (cbcEnc E iv pt) = pt := by
  intro n
  induction n with
  | zero =>
    intro pt iv hle _ _
    have : pt = [] := List.length_eq_zero.mp (by omega)
    subst this
    rw [cbcEnc_nil, cbcDec_nil]
  | succ n ih =>
    intro pt iv hle hiv hdvd
    by_cases hpt : pt = []
    · subst hpt
      rw [cbcEnc_nil, cbcDec_nil]
    · rw [cbcEnc, dif_neg hpt]
      have hlen0 : pt.length ≠ 0 := fun hl => hpt (List.length_eq_zero.mp hl)
      have h8 : 8 ≤ pt.length := by
        rcases hdvd with ⟨k, hk⟩
        rcases Nat.eq_zero_or_pos k with rfl | hkp
        · omega
        · omega
      have hxlen : (List.zipWith Nat.xor (pt.take 8) iv).length = 8 := by
        rw [List.length_zipWith, List.length_take, hiv]
        omega
      have hclen : (E (List.zipWith Nat.xor (pt.take 8) iv)).length = 8 := hE _ hxlen
      have hcne : E (List.zipWith Nat.xor (pt.take 8) iv) ≠ [] := by
        intro hnil
        rw [hnil] at hclen
        simp at hclen
      rw [cbcDec, dif_neg (by simp [hcne])]
      have htl : (E (List.zipWith Nat.xor (pt.take 8) iv) ++
          cbcEnc E (E (List.zipWith Nat.xor (pt.take 8) iv)) (pt.drop 8)).take 8 =
          E (List.zipWith Nat.xor (pt.take 8) iv) := List.take_left' hclen
      have hdr : (E (List.zipWith Nat.xor (pt.take 8) iv) ++
          cbcEnc E (E (List.zipWith Nat.xor (pt.take 8) iv)) (pt.drop 8)).drop 8 =
          cbcEnc E (E (List.zipWith Nat.xor (pt.take 8) iv)) (pt.drop 8) := List.drop_left' hclen
      rw [htl, hdr, hED _ hxlen, zipWith_xor_cancel _ _ (by rw [List.length_take, hiv]; omega),
        ih (pt.drop 8) _ (by rw [List.length_drop]; omega) hclen
          (by rw [List.length_drop]; exact (Nat.dvd_sub' hdvd (by norm_num))),
        List.take_append_drop]

theorem cfbEnc_nil (E : List Nat → List Nat) (iv : List Nat) : cfbEnc E iv [] = [] := by
  rw [cfbEnc]
  simp

theorem cfbEnc_length (E : List Nat → List Nat) (hE : ∀ iv, (E iv).length = 16) :
    ∀ (n : Nat) (pt iv : List Nat), pt.length ≤ n → (cfbEnc E iv pt).length = pt.length := by
  intro n
  induction n with
  | zero =>
    intro pt iv hle
    have : pt = [] := List.length_eq_zero.mp (by omega)
    subst this
    rw [cfbEnc_nil]
  | succ n ih =>
    intro pt iv hle
    by_cases hpt : pt = []
    · subst hpt
      rw [cfbEnc_nil]
    · rw [cfbEnc, dif_neg hpt]
      have hlen0 : pt.length ≠ 0 := fun hl => hpt (List.length_eq_zero.mp hl)
      rw [List.length_append, ih (pt.drop 16) _ (by rw [List.length_drop]; omega),
        List.length_drop, List.length_zipWith, List.length_take, hE]
      omega

/-! ## BER length marshalling -/

theorem bytesToNatBE_append_singleton (l : List Nat) (b : Nat) :
    bytesToNatBE (l ++ [b]) = bytesToNatBE l * 256 + b := by
  simp [bytesToNatBE, List.foldl_append]

theorem bytesToNatBE_natToBEbytesAux :
    ∀ (fuel n : Nat), n < 256 ^ fuel → bytesToNatBE (natToBEbytesAux fuel n) = n := by
  intro fuel
  induction fuel with
  | zero =>
    intro n h
    simp only [pow_zero] at h
    have : n = 0 := by omega
    subst this
    rfl
  | succ f ih =>
    intro n h
    rw [natToBEbytesAux]
    by_cases hn : n = 0
    · subst hn
      simp [bytesToNatBE]
    · rw [if_neg hn, bytesToNatBE_append_singleton,
        ih (n / 256) (Nat.div_lt_of_lt_mul (by rw [pow_succ] at h; omega))]
      omega

theorem natToBEbytesAux_length (fuel : Nat) :
    ∀ n k, n < 256 ^ k → (natToBEbytesAux fuel n).length ≤ k := by
  induction fuel with
  | zero =>
    intro n k _
    simp [natToBEbytesAux]
  | succ f ih =>
    intro n k h
    rw [natToBEbytesAux]
    by_cases hn : n = 0
    · simp [hn]
    · rw [if_neg hn]
      have hk : k ≠ 0 := by
        rintro rfl
        simp only [pow_zero] at h
        omega
      obtain ⟨k2, rfl⟩ : ∃ k2, k = k2 + 1 := ⟨k - 1, by omega⟩
      have := ih (n / 256) k2 (Nat.div_lt_of_lt_mul (by rw [pow_succ] at h; omega))
      simp only [List.length_append, List.length_cons, List.length_nil]
      omega

theorem natToBEbytesAux_ne_nil (fuel n : Nat) (hn : n ≠ 0) (hf : fuel ≠ 0) :
    natToBEbytesAux fuel n ≠ [] := by
  obtain ⟨f, rfl⟩ : ∃ f, fuel = f + 1 := ⟨fuel - 1, by omega⟩
  rw [natToBEbytesAux, if_neg hn]
  simp

theorem bytesToNatBE_natToBEbytes (n : Nat) (h : n < 256 ^ 16) :
    bytesToNatBE (natToBEbytes n) = n := by
  rw [natToBEbytes]
  exact bytesToNatBE_natToBEbytesAux 16 n h

theorem marshalLength_ok (n : Nat) (h : n < 4294967296) :
    ∃ L, marshalLength n = .ok L ∧ 1 ≤ L.length ∧ L.length ≤ 5 ∧
      ∀ (t : Nat) (rest : List Nat),
        parseLength (t :: (L ++ rest)) = (n + 1 + L.length, 1 + L.length) := by
  by_cases hs : n ≤ 127
  · refine ⟨[n], by rw [marshalLength, if_pos hs], by simp, by simp, ?_⟩
    intro t rest
    show parseLength (t :: n :: rest) = (n + 1 + 1, 1 + 1)
    rw [parseLength, if_pos hs]
  · have hlen4 : (natToBEbytes n).length ≤ 4 :=
      natToBEbytesAux_length 16 n 4 (by norm_num; omega)
    have hne : natToBEbytes n ≠ [] :=
      natToBEbytesAux_ne_nil 16 n (by omega) (by norm_num)
    refine ⟨(128 + (natToBEbytes n).length) :: natToBEbytes n, ?_, by simp, by simp; omega, ?_⟩
    · rw [marshalLength, if_neg hs]
      rw [if_pos hlen4]
    · intro t rest
      show parseLength (t :: (128 + (natToBEbytes n).length) :: (natToBEbytes n ++ rest)) = _
      rw [parseLength, if_neg (by omega)]
      have hmod : (128 + (natToBEbytes n).length) % 128 = (natToBEbytes n).length := by
        omega
      rw [hmod]
      have htake : (natToBEbytes n ++ rest).take (natToBEbytes n).length = natToBEbytes n :=
        List.take_left _ _
      simp only [htake, bytesToNatBE_natToBEbytes n (by norm_num; omega),
        Prod.mk.injEq, List.length_cons]
      omega

/-! ## The reserved authentication-parameters window (C2) -/

theorem getD_replicate_lt (k i v d : Nat) (h : i < k) :
    (List.replicate k v).getD i d = v := by
  rw [List.getD_eq_getElem?_getD, List.getElem?_replicate, if_pos h]
  rfl

theorem getD_append_offset (l1 l2 : List Nat) (i d : Nat) :
    (l1 ++ l2).getD (l1.length + i) d = l2.getD i d := by
  rw [List.getD_append_right _ _ _ _ (by omega)]
  congr 1
  omega

theorem zeros_window (pre post : List Nat) (i : Nat) (hi : i < 12) :
    (pre ++ ((4 :: 12 :: List.replicate 12 0) ++ post)).getD (pre.length + 2 + i) 256 = 0 := by
  have h1 : pre.length + 2 + i = pre.length + (2 + i) := by omega
  rw [h1, getD_append_offset]
  have h2 : (4 :: 12 :: List.replicate 12 0) ++ post =
      4 :: 12 :: (List.replicate 12 0 ++ post) := by simp
  rw [h2]
  have h3 : 2 + i = i + 1 + 1 := by omega
  rw [h3, List.getD_cons_succ, List.getD_cons_succ,
    List.getD_append _ _ _ _ (by simpa using hi), getD_replicate_lt 12 i 0 256 hi]

theorem seq_zeros (paramLen P post : List Nat) (i : Nat) (hi : i < 12) :
    (SequenceTag :: paramLen ++ (P ++ ([4, 12] ++ List.replicate 12 0) ++ post)).getD
      (P.length + 2 + 1 + paramLen.length + i) 256 = 0 := by
  have hrw : SequenceTag :: paramLen ++ (P ++ ([4, 12] ++ List.replicate 12 0) ++ post) =
      (SequenceTag :: paramLen ++ P) ++ ((4 :: 12 :: List.replicate 12 0) ++ post) := by
    simp
  rw [hrw]
  have hidx : P.length + 2 + 1 + paramLen.length + i =
      (SequenceTag :: paramLen ++ P).length + 2 + i := by
    simp only [List.length_cons, List.length_append]
    omega
  rw [hidx]
  exact zeros_window _ _ i hi

theorem marshalUsm_auth_zeros (pkt : SnmpPacket) (sp : UsmSecurityParameters)
    (hsp : pkt.securityParameters = some sp) (hauth : pkt.msgFlags &&& AuthNoPriv > 0)
    (sec : List Nat) (aps : Nat)
    (hok : marshalSnmpV3UsmSecurityParameters pkt = .ok (sec, aps)) :
    aps + 12 ≤ sec.length ∧ (∀ i, i < 12 → sec.getD (aps + i) 256 = 0) := by
  rw [marshalSnmpV3UsmSecurityParameters, hsp] at hok
  simp only [if_pos hauth] at hok
  split at hok
  · exact absurd hok (by simp)
  · rename_i privPart hpriv
    split at hok
    · exact absurd hok (by simp)
    · rename_i paramLen hparam
      rw [Except.ok.injEq, Prod.mk.injEq] at hok
      obtain ⟨hsec, haps⟩ := hok
      subst hsec
      subst haps
      constructor
      · simp only [List.length_cons, List.length_append, List.length_replicate]
        omega
      · intro i hi
        exact seq_zeros _ _ _ i hi

theorem window_props (pre sec post : List Nat) (aps : Nat)
    (hbound : aps + 12 ≤ sec.length)
    (hzeros : ∀ i, i < 12 → sec.getD (aps + i) 256 = 0) :
    (∀ i, i < 12 → ((pre ++ sec) ++ post).getD (aps + pre.length + i) 256 = 0) ∧
    aps + pre.length + 12 ≤ ((pre ++ sec) ++ post).length := by
  constructor
  · intro i hi
    rw [List.append_assoc]
    have hidx : aps + pre.length + i = pre.length + (aps + i) := by omega
    rw [hidx, getD_append_offset, List.getD_append _ _ _ _ (by omega)]
    exact hzeros i hi
  · simp only [List.length_append]
    omega

/-- C2: on an authenticated outbound build, the builder-reported offset
addresses 12 zero bytes in the framed message, and authenticate
overwrites exactly those 12 bytes with the first 12 bytes of the
RFC 2104 HMAC (64-byte block, ipad 0x36, opad 0x5C) of the zero-slotted
message under the localized key. -/
theorem outbound_authentication (desE aesE : List Nat → List Nat → List Nat)
    (pkt : SnmpPacket) (sp : UsmSecurityParameters) (msgid : Nat)
    (bufInit pduBytes out : List Nat) (s : Nat)
    (hv : pkt.version = Version3) (hm : pkt.securityModel = UserSecurityModel)
    (hsp : pkt.securityParameters = some sp) (hauth : pkt.msgFlags &&& AuthNoPriv > 0)
    (hpass : sp.authenticationPassphrase ≠ [])
    (hok : prepV3pPDU desE aesE pkt msgid bufInit pduBytes = .ok (out, s)) :
    (∀ i, i < 12 → out.getD (s + i) 256 = 0) ∧
    authenticate pkt out s = .ok (out.take s ++
      (hmacRFC2104 (hashOf sp.authenticationProtocol)
        (genlocalkeyCore sp.authenticationProtocol sp.authenticationPassphrase
          sp.authoritativeEngineID) out).take 12 ++
      out.drop (s + 12)) := by
  simp only [prepV3pPDU, if_pos hm] at hok
  split at hok
  · exact absurd hok (by simp)
  · rename_i sec aps heq
    split at hok
    · exact absurd hok (by simp)
    · rename_i Lsec heq2
      split at hok
      · exact absurd hok (by simp)
      · rename_i scpd heq3
        rw [Except.ok.injEq, Prod.mk.injEq] at hok
        obtain ⟨hout, hs⟩ := hok
        obtain ⟨hbound, hzeros⟩ := marshalUsm_auth_zeros pkt sp hsp hauth sec aps heq
        subst hout
        subst hs
        refine ⟨(window_props _ sec scpd aps hbound hzeros).1, ?_⟩
        rw [authenticate_auth _ _ _ sp hv (by omega) hm hsp hpass
            (window_props _ sec scpd aps hbound hzeros).2,
          hmacTag_eq_hmacRFC2104 _ _ _ (genlocalkeyCore_length_le _ _ _)]

/-- Witness for C2 at a concrete AuthNoPriv packet. -/
theorem outbound_authentication_witness :
    (exPacketAuth.version = Version3 ∧ exPacketAuth.securityModel = UserSecurityModel ∧
     exPacketAuth.securityParameters = some exUsmAuth ∧
     exPacketAuth.msgFlags &&& AuthNoPriv > 0 ∧
     exUsmAuth.authenticationPassphrase ≠ [] ∧
     prepV3pPDU idBlock idBlock exPacketAuth 7 [] [5, 0] = .ok (exFramedAuth, 40)) ∧
    ((∀ i, i < 12 → exFramedAuth.getD (40 + i) 256 = 0) ∧
     authenticate exPacketAuth exFramedAuth 40 = .ok (exFramedAuth.take 40 ++
       (hmacRFC2104 (hashOf exUsmAuth.authenticationProtocol)
         (genlocalkeyCore exUsmAuth.authenticationProtocol exUsmAuth.authenticationPassphrase
           exUsmAuth.authoritativeEngineID) exFramedAuth).take 12 ++
       exFramedAuth.drop (40 + 12))) :=
  ⟨⟨rfl, rfl, rfl, by decide, by decide, rfl⟩,
   outbound_authentication idBlock idBlock exPacketAuth exUsmAuth 7 [] [5, 0]
     exFramedAuth 40 rfl rfl rfl (by decide) (by decide) rfl⟩

/-! ## DES-CBC padding and recovery (C3) -/

theorem marshalScopedPDU_des_spec (desE desD aesE : List Nat → List Nat → List Nat)
    (pkt : SnmpPacket) (sp : UsmSecurityParameters) (pduBytes : List Nat)
    (hf : pkt.msgFlags &&& AuthPriv > AuthNoPriv) (hm : pkt.securityModel = UserSecurityModel)
    (hsp : pkt.securityParameters = some sp) (hproto : ¬sp.privacyProtocol = AES)
    (hpass : sp.privacyPassphrase ≠ []) (hpp : sp.privacyParameters.length = 8)
    (hctx : pkt.contextEngineID.length < 1048576) (hname : pkt.contextName.length < 1048576)
    (hpdu : pduBytes.length < 1048576)
    (hE : ∀ k b, b.length = 8 → (desE k b).length = 8)
    (hED : ∀ k b, b.length = 8 → desD k (desE k b) = b) :
    ∃ prepared pduLen, prepareSnmpV3ScopedPDU pkt pduBytes = .ok prepared ∧
      marshalLength prepared.length = .ok pduLen ∧
      (let framed := SequenceTag :: pduLen ++ prepared
       let key := genlocalkeyCore sp.authenticationProtocol sp.privacyPassphrase
         sp.authoritativeEngineID
       let iv := List.zipWith Nat.xor ((key.drop 8).take 8) (sp.privacyParameters.take 8)
       let padded := framed ++ List.replicate (8 - framed.length % 8) 0
       let ct := cbcEnc (desE (key.take 8)) iv padded
       ∃ ctLen, marshalLength ct.length = .ok ctLen ∧
         marshalSnmpV3ScopedPDU desE aesE pkt pduBytes = .ok (OctetStringTag :: ctLen ++ ct) ∧
         ct.length = (framed.length / 8 + 1) * 8 ∧
         (cbcDec (desD (key.take 8)) iv ct).take (parseLength (cbcDec (desD (key.take 8)) iv ct)).1
           = framed) := by
  obtain ⟨Lid, hLid, hLid1, hLid5, _⟩ := marshalLength_ok pkt.contextEngineID.length (by omega)
  obtain ⟨Lname, hLname, hLname1, hLname5, _⟩ := marshalLength_ok pkt.contextName.length (by omega)
  have hprep : prepareSnmpV3ScopedPDU pkt pduBytes = .ok
      ((OctetStringTag :: Lid) ++ pkt.contextEngineID ++ (OctetStringTag :: Lname) ++
        pkt.contextName ++ pduBytes) := by
    rw [prepareSnmpV3ScopedPDU, hLid, hLname]
  obtain ⟨Lp, hLp, hLp1, hLp5, hLpparse⟩ := marshalLength_ok ((OctetStringTag :: Lid) ++
    pkt.contextEngineID ++ (OctetStringTag :: Lname) ++ pkt.contextName ++ pduBytes).length
    (by simp only [List.length_append, List.length_cons]; omega)
  refine ⟨_, Lp, hprep, hLp, ?_⟩
  have hkeylen := genlocalkeyCore_length sp.authenticationProtocol sp.privacyPassphrase
    sp.authoritativeEngineID
  have hiv : (List.zipWith Nat.xor
      (((genlocalkeyCore sp.authenticationProtocol sp.privacyPassphrase
        sp.authoritativeEngineID).drop 8).take 8)
      (sp.privacyParameters.take 8)).length = 8 := by
    rw [List.length_zipWith, List.length_take, List.length_drop, List.length_take, hpp]
    omega
  have hmod := Nat.mod_lt ((SequenceTag :: Lp) ++ ((OctetStringTag :: Lid) ++
    pkt.contextEngineID ++ (OctetStringTag :: Lname) ++ pkt.contextName ++ pduBytes)).length
    (show 0 < 8 by norm_num)
  have hdvd : 8 ∣ (((SequenceTag :: Lp) ++ ((OctetStringTag :: Lid) ++
      pkt.contextEngineID ++ (OctetStringTag :: Lname) ++ pkt.contextName ++ pduBytes)) ++
      List.replicate (8 - ((SequenceTag :: Lp) ++ ((OctetStringTag :: Lid) ++
        pkt.contextEngineID ++ (OctetStringTag :: Lname) ++ pkt.contextName ++
        pduBytes)).length % 8) 0).length := by
    apply Nat.dvd_of_mod_eq_zero
    simp only [List.length_append, List.length_replicate]
    omega
  have hctlen := cbcEnc_length
    (desE ((genlocalkeyCore sp.authenticationProtocol sp.privacyPassphrase
      sp.authoritativeEngineID).take 8))
    (fun b hb => hE _ b hb) _ _ _ le_rfl hiv hdvd
  have hctbound : (cbcEnc (desE ((genlocalkeyCore sp.authenticationProtocol sp.privacyPassphrase
      sp.authoritativeEngineID).take 8))
      (List.zipWith Nat.xor
        (((genlocalkeyCore sp.authenticationProtocol sp.privacyPassphrase
          sp.authoritativeEngineID).drop 8).take 8)
        (sp.privacyParameters.take 8))
      (((SequenceTag :: Lp) ++ ((OctetStringTag :: Lid) ++
        pkt.contextEngineID ++ (OctetStringTag :: Lname) ++ pkt.contextName ++ pduBytes)) ++
        List.replicate (8 - ((SequenceTag :: Lp) ++ ((OctetStringTag :: Lid) ++
          pkt.contextEngineID ++ (OctetStringTag :: Lname) ++ pkt.contextName ++
          pduBytes)).length % 8) 0)).length < 4294967296 := by
    rw [hctlen]
    simp only [List.length_append, List.length_cons, List.length_replicate]
    omega
  obtain ⟨Lc, hLc, _, _, _⟩ := marshalLength_ok _ hctbound
  refine ⟨Lc, hLc, ?_, ?_, ?_⟩
  · rw [marshalSnmpV3ScopedPDU]
    simp only [hprep, hLp, genlocalkey_eq_core _ _ _ hpass, hsp,
      if_pos (And.intro hf hm), if_neg hproto, if_neg (show ¬sp.privacyParameters.length < 8 by omega),
      hLc]
  · rw [hctlen]
    simp only [List.length_append, List.length_replicate]
    omega
  · have hdec := cbcDec_cbcEnc
      (desE ((genlocalkeyCore sp.authenticationProtocol sp.privacyPassphrase
        sp.authoritativeEngineID).take 8))
      (desD ((genlocalkeyCore sp.authenticationProtocol sp.privacyPassphrase
        sp.authoritativeEngineID).take 8))
      (fun b hb => hED _ b hb) (fun b hb => hE _ b hb) _ _ _ le_rfl hiv hdvd
    rw [hdec]
    have hform : ((SequenceTag :: Lp) ++ ((OctetStringTag :: Lid) ++
        pkt.contextEngineID ++ (OctetStringTag :: Lname) ++ pkt.contextName ++ pduBytes)) ++
        List.replicate (8 - ((SequenceTag :: Lp) ++ ((OctetStringTag :: Lid) ++
          pkt.contextEngineID ++ (OctetStringTag :: Lname) ++ pkt.contextName ++
          pduBytes)).length % 8) 0 =
        SequenceTag :: (Lp ++ (((OctetStringTag :: Lid) ++
          pkt.contextEngineID ++ (OctetStringTag :: Lname) ++ pkt.contextName ++ pduBytes) ++
          List.replicate (8 - ((SequenceTag :: Lp) ++ ((OctetStringTag :: Lid) ++
            pkt.contextEngineID ++ (OctetStringTag :: Lname) ++ pkt.contextName ++
            pduBytes)).length % 8) 0)) := by
      simp
    have hpl : (parseLength (((SequenceTag :: Lp) ++ ((OctetStringTag :: Lid) ++
        pkt.contextEngineID ++ (OctetStringTag :: Lname) ++ pkt.contextName ++ pduBytes)) ++
        List.replicate (8 - ((SequenceTag :: Lp) ++ ((OctetStringTag :: Lid) ++
          pkt.contextEngineID ++ (OctetStringTag :: Lname) ++ pkt.contextName ++
          pduBytes)).length % 8) 0)).1 =
        ((OctetStringTag :: Lid) ++ pkt.contextEngineID ++ (OctetStringTag :: Lname) ++
          pkt.contextName ++ pduBytes).length + 1 + Lp.length := by
      rw [hform, hLpparse]
    rw [hpl]
    exact List.take_left' (by simp only [List.length_append, List.length_cons]; omega)

/-- C3 (amended): with DES-CBC privacy the framed scoped PDU of length
L is zero-padded to the next multiple of 8 strictly greater than L (at
least one pad byte; an already-aligned plaintext grows by a full
block), so the ciphertext length is (⌊L/8⌋+1)·8 — not ⌈L/8⌉·8; on
parse, decryption followed by truncation to the outer BER length
recovers the original framed scoped PDU bytes. -/
theorem des_padding_and_recovery (desE desD aesE : List Nat → List Nat → List Nat)
    (pkt : SnmpPacket) (sp : UsmSecurityParameters) (pduBytes : List Nat)
    (hf : pkt.msgFlags &&& AuthPriv > AuthNoPriv) (hm : pkt.securityModel = UserSecurityModel)
    (hsp : pkt.securityParameters = some sp) (hproto : ¬sp.privacyProtocol = AES)
    (hpass : sp.privacyPassphrase ≠ []) (hpp : sp.privacyParameters.length = 8)
    (hctx : pkt.contextEngineID.length < 1048576) (hname : pkt.contextName.length < 1048576)
    (hpdu : pduBytes.length < 1048576)
    (hE : ∀ k b, b.length = 8 → (desE k b).length = 8)
    (hED : ∀ k b, b.length = 8 → desD k (desE k b) = b) :
    ∃ prepared pduLen, prepareSnmpV3ScopedPDU pkt pduBytes = .ok prepared ∧
      marshalLength prepared.length = .ok pduLen ∧
      (let framed := SequenceTag :: pduLen ++ prepared
       let key := genlocalkeyCore sp.authenticationProtocol sp.privacyPassphrase
         sp.authoritativeEngineID
       let iv := List.zipWith Nat.xor ((key.drop 8).take 8) (sp.privacyParameters.take 8)
       let padded := framed ++ List.replicate (8 - framed.length % 8) 0
       let ct := cbcEnc (desE (key.take 8)) iv padded
       ∃ ctLen, marshalLength ct.length = .ok ctLen ∧
         marshalSnmpV3ScopedPDU desE aesE pkt pduBytes = .ok (OctetStringTag :: ctLen ++ ct) ∧
         ct.length = (framed.length / 8 + 1) * 8 ∧
         (cbcDec (desD (key.take 8)) iv ct).take (parseLength (cbcDec (desD (key.take 8)) iv ct)).1
           = framed) :=
  marshalScopedPDU_des_spec desE desD aesE pkt sp pduBytes hf hm hsp hproto hpass hpp
    hctx hname hpdu hE hED

/-- C3 counterexample: for an 8-byte framed scoped PDU (a multiple of
8 already) the DES ciphertext is 16 bytes, not ceil(8/8)*8 = 8 — the
code always appends at least one padding byte. -/
theorem des_padding_cx :
    ∃ ct, marshalSnmpV3ScopedPDU idBlock idBlock exPacketDES [5, 0] =
        .ok (OctetStringTag :: 16 :: ct) ∧
      ct.length = 16 ∧
      (prepareSnmpV3ScopedPDU exPacketDES [5, 0]).map (fun l => 2 + l.length) = .ok 8 ∧
      (16 : Nat) ≠ ((8 + 8 - 1) / 8) * 8 := by
  obtain ⟨prepared, pduLen, hprep, hLp, rest⟩ :=
    marshalScopedPDU_des_spec idBlock idBlock idBlock exPacketDES exUsmDES [5, 0]
      (by decide) rfl rfl (by decide) (by decide) (by decide) (by decide) (by decide)
      (by decide) (fun k b hb => hb) (fun k b hb => rfl)
  have h0 : prepareSnmpV3ScopedPDU exPacketDES [5, 0] = .ok [4, 0, 4, 0, 5, 0] := rfl
  rw [h0, Except.ok.injEq] at hprep
  subst hprep
  have h1 : marshalLength ([4, 0, 4, 0, 5, 0] : List Nat).length = .ok [6] := rfl
  rw [h1, Except.ok.injEq] at hLp
  subst hLp
  obtain ⟨ctLen, hLc, hmarshal, hlen16, _⟩ := rest
  have hlen16' := hlen16.trans
    (by decide : ((([SequenceTag, 6] : List Nat) ++ [4, 0, 4, 0, 5, 0]).length / 8 + 1) * 8 = 16)
  rw [hlen16'] at hLc
  have h2 : marshalLength 16 = .ok [16] := rfl
  rw [h2, Except.ok.injEq] at hLc
  subst hLc
  refine ⟨_, ?_, hlen16', rfl, by decide⟩
  simpa using hmarshal

/-- Witness for C3 (amended) at a concrete DES packet with the identity
block transform. -/
theorem des_padding_and_recovery_witness :
    ((exPacketDES.msgFlags &&& AuthPriv > AuthNoPriv) ∧
     exPacketDES.securityModel = UserSecurityModel ∧
     exPacketDES.securityParameters = some exUsmDES ∧
     ¬exUsmDES.privacyProtocol = AES ∧
     exUsmDES.privacyPassphrase ≠ [] ∧
     exUsmDES.privacyParameters.length = 8 ∧
     exPacketDES.contextEngineID.length < 1048576 ∧
     exPacketDES.contextName.length < 1048576 ∧
     ([5, 0] : List Nat).length < 1048576 ∧
     (∀ k b, b.length = 8 → (idBlock k b).length = 8) ∧
     (∀ k b, b.length = 8 → idBlock k (idBlock k b) = b)) ∧
    (∃ prepared pduLen, prepareSnmpV3ScopedPDU exPacketDES [5, 0] = .ok prepared ∧
      marshalLength prepared.length = .ok pduLen ∧
      (let framed := SequenceTag :: pduLen ++ prepared
       let key := genlocalkeyCore exUsmDES.authenticationProtocol exUsmDES.privacyPassphrase
         exUsmDES.authoritativeEngineID
       let iv := List.zipWith Nat.xor ((key.drop 8).take 8) (exUsmDES.privacyParameters.take 8)
       let padded := framed ++ List.replicate (8 - framed.length % 8) 0
       let ct := cbcEnc (idBlock (key.take 8)) iv padded
       ∃ ctLen, marshalLength ct.length = .ok ctLen ∧
         marshalSnmpV3ScopedPDU idBlock idBlock exPacketDES [5, 0] =
           .ok (OctetStringTag :: ctLen ++ ct) ∧
         ct.length = (framed.length / 8 + 1) * 8 ∧
         (cbcDec (idBlock (key.take 8)) iv ct).take
           (parseLength (cbcDec (idBlock (key.take 8)) iv ct)).1 = framed)) :=
  ⟨⟨by decide, rfl, rfl, by decide, by decide, by decide, by decide, by decide, by decide,
    fun k b hb => hb, fun k b hb => rfl⟩,
   des_padding_and_recovery idBlock idBlock idBlock exPacketDES exUsmDES [5, 0]
     (by decide) rfl rfl (by decide) (by decide) (by decide) (by decide) (by decide)
     (by decide) (fun k b hb => hb) (fun k b hb => rfl)⟩

theorem marshalScopedPDU_aes_spec (desE aesE : List Nat → List Nat → List Nat)
    (pkt : SnmpPacket) (sp : UsmSecurityParameters) (pduBytes : List Nat)
    (hf : pkt.msgFlags &&& AuthPriv > AuthNoPriv) (hm : pkt.securityModel = UserSecurityModel)
    (hsp : pkt.securityParameters = some sp) (hproto : sp.privacyProtocol = AES)
    (hpass : sp.privacyPassphrase ≠ []) (hpp8 : sp.privacyParameters.length = 8)
    (hctx : pkt.contextEngineID.length < 1048576) (hname : pkt.contextName.length < 1048576)
    (hpdu : pduBytes.length < 1048576)
    (hE : ∀ k iv, (aesE k iv).length = 16) :
    ∃ prepared pduLen, prepareSnmpV3ScopedPDU pkt pduBytes = .ok prepared ∧
      marshalLength prepared.length = .ok pduLen ∧
      (let framed := SequenceTag :: pduLen ++ prepared
       let key := genlocalkeyCore sp.authenticationProtocol sp.privacyPassphrase
         sp.authoritativeEngineID
       let iv := putUint32BE sp.authoritativeEngineBoots ++
         putUint32BE sp.authoritativeEngineTime ++ sp.privacyParameters
       let ct := cfbEnc (aesE (key.take 16)) iv framed
       ∃ ctLen, marshalLength ct.length = .ok ctLen ∧
         marshalSnmpV3ScopedPDU desE aesE pkt pduBytes = .ok (OctetStringTag :: ctLen ++ ct) ∧
         ct.length = framed.length) := by
  obtain ⟨Lid, hLid, hLid1, hLid5, _⟩ := marshalLength_ok pkt.contextEngineID.length (by omega)
  obtain ⟨Lname, hLname, hLname1, hLname5, _⟩ := marshalLength_ok pkt.contextName.length (by omega)
  have hprep : prepareSnmpV3ScopedPDU pkt pduBytes = .ok
      ((OctetStringTag :: Lid) ++ pkt.contextEngineID ++ (OctetStringTag :: Lname) ++
        pkt.contextName ++ pduBytes) := by
    rw [prepareSnmpV3ScopedPDU, hLid, hLname]
  obtain ⟨Lp, hLp, hLp1, hLp5, _⟩ := marshalLength_ok ((OctetStringTag :: Lid) ++
    pkt.contextEngineID ++ (OctetStringTag :: Lname) ++ pkt.contextName ++ pduBytes).length
    (by simp only [List.length_append, List.length_cons]; omega)
  refine ⟨_, Lp, hprep, hLp, ?_⟩
  have htake : (sp.privacyParameters ++ List.replicate 8 0).take 8 = sp.privacyParameters :=
    List.take_left' hpp8
  have hctlen := cfbEnc_length
    (aesE ((genlocalkeyCore sp.authenticationProtocol sp.privacyPassphrase
      sp.authoritativeEngineID).take 16)) (fun iv => hE _ iv)
    ((SequenceTag :: Lp) ++ ((OctetStringTag :: Lid) ++ pkt.contextEngineID ++
      (OctetStringTag :: Lname) ++ pkt.contextName ++ pduBytes)).length
    ((SequenceTag :: Lp) ++ ((OctetStringTag :: Lid) ++ pkt.contextEngineID ++
      (OctetStringTag :: Lname) ++ pkt.contextName ++ pduBytes))
    (putUint32BE sp.authoritativeEngineBoots ++ putUint32BE sp.authoritativeEngineTime ++
      sp.privacyParameters) le_rfl
  have hctbound : (cfbEnc
      (aesE ((genlocalkeyCore sp.authenticationProtocol sp.privacyPassphrase
        sp.authoritativeEngineID).take 16))
      (putUint32BE sp.authoritativeEngineBoots ++ putUint32BE sp.authoritativeEngineTime ++
        sp.privacyParameters)
      ((SequenceTag :: Lp) ++ ((OctetStringTag :: Lid) ++ pkt.contextEngineID ++
        (OctetStringTag :: Lname) ++ pkt.contextName ++ pduBytes))).length < 4294967296 := by
    rw [hctlen]
    simp only [List.length_append, List.length_cons]
    omega
  obtain ⟨Lc, hLc, _, _, _⟩ := marshalLength_ok _ hctbound
  refine ⟨Lc, hLc, ?_, hctlen⟩
  rw [marshalSnmpV3ScopedPDU]
  simp only [hprep, hLp, genlocalkey_eq_core _ _ _ hpass, hsp,
    if_pos (And.intro hf hm), if_pos hproto, htake, hLc]

/-- C5: an outbound AuthPriv build with AES privacy increments the
connection 64-bit AES counter, stores its big-endian encoding as the
packet's 8-byte salt, and the scoped PDU is then encrypted with the
first 16 bytes of the localized privacy key under a 16-byte IV equal
to boots (BE u32) ‖ time (BE u32) ‖ salt; no padding is applied, so
the ciphertext length equals the framed plaintext length. -/
theorem aes_cfb_iv_and_no_padding (desE aesE : List Nat → List Nat → List Nat)
    (x : GoSNMP) (base : UsmSecurityParameters) (pktIn : SnmpPacket)
    (sp : UsmSecurityParameters) (pduBytes : List Nat)
    (hxf : x.msgFlags &&& AuthPriv > AuthNoPriv) (hxm : x.securityModel = UserSecurityModel)
    (hxsp : x.securityParameters = some base) (hbaes : base.privacyProtocol = AES)
    (hpv : pktIn.version = Version3) (hpm : pktIn.securityModel = UserSecurityModel)
    (hpf : pktIn.msgFlags &&& AuthPriv > AuthNoPriv)
    (hpsp : pktIn.securityParameters = some sp) (hspaes : sp.privacyProtocol = AES)
    (hpass : sp.privacyPassphrase ≠ [])
    (hctx : pktIn.contextEngineID.length < 1048576) (hname : pktIn.contextName.length < 1048576)
    (hpdu : pduBytes.length < 1048576)
    (hE : ∀ k iv, (aesE k iv).length = 16) :
    ∃ x2,
      (let newSalt := (base.localAESSalt + 1) % 18446744073709551616
       let sp2 : UsmSecurityParameters := {sp with privacyParameters := putUint64BE newSalt}
       let pkt2 : SnmpPacket := {pktIn with securityParameters := some sp2}
       buildPacket3 x pktIn = .ok (x2, pkt2) ∧
       ∃ prepared pduLen, prepareSnmpV3ScopedPDU pkt2 pduBytes = .ok prepared ∧
         marshalLength prepared.length = .ok pduLen ∧
         (let framed := SequenceTag :: pduLen ++ prepared
          let key := genlocalkeyCore sp.authenticationProtocol sp.privacyPassphrase
            sp.authoritativeEngineID
          let iv := putUint32BE sp.authoritativeEngineBoots ++
            putUint32BE sp.authoritativeEngineTime ++ putUint64BE newSalt
          let ct := cfbEnc (aesE (key.take 16)) iv framed
          ∃ ctLen, marshalLength ct.length = .ok ctLen ∧
            marshalSnmpV3ScopedPDU desE aesE pkt2 pduBytes =
              .ok (OctetStringTag :: ctLen ++ ct) ∧
            ct.length = framed.length)) := by
  have hndes : ¬base.privacyProtocol = DES := by rw [hbaes]; decide
  exact ⟨_,
    by simp only [buildPacket3, hxsp, hpsp, if_pos (And.intro hxf hxm), if_pos hbaes,
         if_pos hspaes, if_neg hndes, if_pos (And.intro hpv (And.intro hpm hpf))]; rfl,
    marshalScopedPDU_aes_spec desE aesE
      {pktIn with securityParameters := some {sp with privacyParameters := putUint64BE ((base.localAESSalt + 1) % 18446744073709551616)}}
      {sp with privacyParameters := putUint64BE ((base.localAESSalt + 1) % 18446744073709551616)}
      pduBytes hpf hpm rfl hspaes hpass (putUint64BE_length _) hctx hname hpdu hE⟩

/-- Witness for C5 at a concrete AES connection (counter 41), with a
constant 16-byte block transform as the AES cipher. -/
theorem aes_cfb_iv_and_no_padding_witness :
    ((exConnAES.msgFlags &&& AuthPriv > AuthNoPriv) ∧
     exConnAES.securityModel = UserSecurityModel ∧
     exConnAES.securityParameters = some exUsmAES ∧
     exUsmAES.privacyProtocol = AES ∧
     exPacketAES.version = Version3 ∧
     exPacketAES.securityModel = UserSecurityModel ∧
     (exPacketAES.msgFlags &&& AuthPriv > AuthNoPriv) ∧
     exPacketAES.securityParameters = some exUsmAES ∧
     exUsmAES.privacyPassphrase ≠ [] ∧
     exPacketAES.contextEngineID.length < 1048576 ∧
     exPacketAES.contextName.length < 1048576 ∧
     ([5, 0] : List Nat).length < 1048576 ∧
     (∀ k iv, (constBlock16 k iv).length = 16)) ∧
    (∃ x2,
      (let newSalt := (exUsmAES.localAESSalt + 1) % 18446744073709551616
       let sp2 : UsmSecurityParameters := {exUsmAES with privacyParameters := putUint64BE newSalt}
       let pkt2 : SnmpPacket := {exPacketAES with securityParameters := some sp2}
       buildPacket3 exConnAES exPacketAES = .ok (x2, pkt2) ∧
       ∃ prepared pduLen, prepareSnmpV3ScopedPDU pkt2 [5, 0] = .ok prepared ∧
         marshalLength prepared.length = .ok pduLen ∧
         (let framed := SequenceTag :: pduLen ++ prepared
          let key := genlocalkeyCore exUsmAES.authenticationProtocol exUsmAES.privacyPassphrase
            exUsmAES.authoritativeEngineID
          let iv := putUint32BE exUsmAES.authoritativeEngineBoots ++
            putUint32BE exUsmAES.authoritativeEngineTime ++ putUint64BE newSalt
          let ct := cfbEnc (constBlock16 (key.take 16)) iv framed
          ∃ ctLen, marshalLength ct.length = .ok ctLen ∧
            marshalSnmpV3ScopedPDU idBlock constBlock16 pkt2 [5, 0] =
              .ok (OctetStringTag :: ctLen ++ ct) ∧
            ct.length = framed.length))) :=
  ⟨⟨by decide, rfl, rfl, rfl, rfl, rfl, by decide, rfl, by decide, by decide, by decide,
    by decide, fun k iv => rfl⟩,
   aes_cfb_iv_and_no_padding idBlock constBlock16 exConnAES exUsmAES exPacketAES exUsmAES
     [5, 0] (by decide) rfl rfl rfl rfl rfl (by decide) rfl rfl (by decide) (by decide)
     (by decide) (by decide) (fun k iv => rfl)⟩

theorem parseV3UsmAndAuth_auth_ok (packet : List Nat) (c0 : Nat) (resp : SnmpPacket)
    (origEID : List Nat) (out : List Nat × SnmpPacket × Nat)
    (hok : parseV3UsmAndAuth packet c0 resp origEID = .ok out)
    (hsm : resp.securityModel = UserSecurityModel)
    (hauth : resp.msgFlags &&& AuthNoPriv > 0) :
    ∃ (c5 : Nat) (rawAP : RawValue) (sp5 : UsmSecurityParameters),
      parseRawField (packet.drop c5) = .ok (rawAP, 14) ∧
      out.1 = packet.take (c5 + 2) ++ List.replicate 12 0 ++ packet.drop (c5 + 14) ∧
      isAuthentic out.1 sp5.authenticationParameters sp5.authenticationProtocol
        sp5.authenticationPassphrase origEID = some true := by
  simp only [parseV3UsmAndAuth, if_pos hsm, if_pos hauth] at hok
  split at hok
  · exact absurd hok (by simp)
  · rename_i sp0 hsp0
    split at hok
    · exact absurd hok (by simp)
    · split at hok
      · exact absurd hok (by simp)
      · rename_i rawEID n1 heq1
        split at hok
        · exact absurd hok (by simp)
        · rename_i rawBoots n2 heq2
          split at hok
          · exact absurd hok (by simp)
          · rename_i rawTime n3 heq3
            split at hok
            · exact absurd hok (by simp)
            · rename_i rawUser n4 heq4
              split at hok
              · exact absurd hok (by simp)
              · rename_i rawAP n5 heq5
                split at hok
                · exact absurd hok (by simp)
                · rename_i hn14
                  split at hok
                  · exact absurd hok (by simp)
                  · exact absurd hok (by simp)
                  · rename_i hiau
                    rw [parseUsmTail] at hok
                    split at hok
                    · exact absurd hok (by simp)
                    · rename_i rawPP n6 heq6
                      rw [Except.ok.injEq] at hok
                      have hn : n5 = 14 := not_not.mp hn14
                      subst hn
                      exact ⟨_, rawAP, _, heq5, by rw [← hok], by rw [← hok]; exact hiau⟩

/-- C4: whenever `extractV3Packet` produces a parsed message, the parse
decomposes into its three stages, and if the parsed header carried the
User Security Model and the Auth flag, then the raw
authentication-parameters TLV was exactly 14 bytes (2 header + 12
content), the buffer handed on to decryption and scoped-PDU extraction
is the original buffer with those 12 content bytes zeroed, and
`isAuthentic` (the recomputed HMAC comparison) returned true on that
zeroed buffer — a failing size check or HMAC mismatch errors out
before any decryption, so no parsed message comes from an unauthentic
packet. -/
theorem no_message_from_unauthentic_packet (desD aesB : List Nat → List Nat → List Nat)
    (packet : List Nat) (cursor : Nat) (response : SnmpPacket) (origAuthEngineID : List Nat)
    (out : List Nat × Nat × SnmpPacket)
    (hok : extractV3Packet desD aesB packet cursor response origAuthEngineID = .ok out) :
    ∃ resp1 c1 packet2 resp2 c2,
      parseV3GlobalData packet cursor response = .ok (resp1, c1) ∧
      parseV3UsmAndAuth packet c1 resp1 origAuthEngineID = .ok (packet2, resp2, c2) ∧
      extractScopedPDU desD aesB packet2 c2 resp2 = .ok out ∧
      (resp1.securityModel = UserSecurityModel → resp1.msgFlags &&& AuthNoPriv > 0 →
        ∃ (c5 : Nat) (rawAP : RawValue) (sp5 : UsmSecurityParameters),
          parseRawField (packet.drop c5) = .ok (rawAP, 14) ∧
          packet2 = packet.take (c5 + 2) ++ List.replicate 12 0 ++ packet.drop (c5 + 14) ∧
          isAuthentic packet2 sp5.authenticationParameters sp5.authenticationProtocol
            sp5.authenticationPassphrase origAuthEngineID = some true) := by
  rw [extractV3Packet] at hok
  split at hok
  · exact absurd hok (by simp)
  · rename_i resp1 c1 heq1
    split at hok
    · exact absurd hok (by simp)
    · rename_i packet2 resp2 c2 heq2
      refine ⟨resp1, c1, packet2, resp2, c2, heq1, heq2, hok, ?_⟩
      intro hsm hauth
      exact parseV3UsmAndAuth_auth_ok packet c1 resp1 origAuthEngineID _ heq2 hsm hauth

/-- Witness for C4 at the concrete inbound NoAuthNoPriv message. -/
theorem no_message_from_unauthentic_packet_witness :
    (extractV3Packet idBlock idBlock exInbound 0 exRespInit [] =
      .ok (exInbound, 40,
        { version := 3, msgFlags := 0, securityModel := 3, securityParameters := some { authoritativeEngineID := [], authoritativeEngineBoots := 0, authoritativeEngineTime := 0, userName := [117], authenticationParameters := [], privacyParameters := [], authenticationProtocol := 2, privacyProtocol := 0, authenticationPassphrase := [104], privacyPassphrase := [], localDESSalt := 0, localAESSalt := 0 }, pduType := 0, contextEngineID := [], contextName := [], msgID := 7 })) ∧
    (∃ resp1 c1 packet2 resp2 c2,
      parseV3GlobalData exInbound 0 exRespInit = .ok (resp1, c1) ∧
      parseV3UsmAndAuth exInbound c1 resp1 [] = .ok (packet2, resp2, c2) ∧
      extractScopedPDU idBlock idBlock packet2 c2 resp2 =
        .ok (exInbound, 40,
          { version := 3, msgFlags := 0, securityModel := 3, securityParameters := some { authoritativeEngineID := [], authoritativeEngineBoots := 0, authoritativeEngineTime := 0, userName := [117], authenticationParameters := [], privacyParameters := [], authenticationProtocol := 2, privacyProtocol := 0, authenticationPassphrase := [104], privacyPassphrase := [], localDESSalt := 0, localAESSalt := 0 }, pduType := 0, contextEngineID := [], contextName := [], msgID := 7 }) ∧
      (resp1.securityModel = UserSecurityModel → resp1.msgFlags &&& AuthNoPriv > 0 →
        ∃ (c5 : Nat) (rawAP : RawValue) (sp5 : UsmSecurityParameters),
          parseRawField (exInbound.drop c5) = .ok (rawAP, 14) ∧
          packet2 = exInbound.take (c5 + 2) ++ List.replicate 12 0 ++ exInbound.drop (c5 + 14) ∧
          isAuthentic packet2 sp5.authenticationParameters sp5.authenticationProtocol
            sp5.authenticationPassphrase [] = some true)) :=
  ⟨rfl,
   no_message_from_unauthentic_packet idBlock idBlock exInbound 0 exRespInit []
     (exInbound, 40,
       { version := 3, msgFlags := 0, securityModel := 3, securityParameters := some { authoritativeEngineID := [], authoritativeEngineBoots := 0, authoritativeEngineTime := 0, userName := [117], authenticationParameters := [], privacyParameters := [], authenticationProtocol := 2, privacyProtocol := 0, authenticationPassphrase := [104], privacyPassphrase := [], localDESSalt := 0, localAESSalt := 0 }, pduType := 0, contextEngineID := [], contextName := [], msgID := 7 })
     rfl⟩
